import Mathlib

/-
Verification development for the Bluesky firehose monitor
(src/monitor.py).  The definitions below are a shallow embedding of the
parts of the program the claims talk about: the per-event processing
pipeline (FirehoseMonitor.process_post / write_to_user_files), the text
helpers (clean_text, extract_hashtags, extract_domains), the statistics
engine (EnhancedStats), the writer thread (FirehoseMonitor.file_writer),
the user-count pre-scan (init_user_count) and the shutdown sequence
(FirehoseMonitor.start).  Wall-clock time is modelled as whole seconds
(Nat); character classes of the regexes are modelled over ASCII.
-/

/-- Python exceptions that the embedded code can raise or catch. -/
inductive PyExc where
  | indexError
  | attributeError
  | typeError
deriving DecidableEq, Repr

/-- Dynamically typed Python values, as they appear in a decoded firehose
record (CBOR decoding can yield None, bools, ints, strings, byte strings,
lists and string-keyed dicts). -/
inductive PyVal where
  | none : PyVal
  | bool : Bool → PyVal
  | int : Int → PyVal
  | str : String → PyVal
  | bytes : List Nat → PyVal
  | list : List PyVal → PyVal
  | dict : List (String × PyVal) → PyVal

mutual
/-- Structural equality of Python values (the equality Python dict keys
use for the value shapes that occur here). -/
def pyBEq : PyVal → PyVal → Bool
  | PyVal.none, PyVal.none => true
  | PyVal.bool a, PyVal.bool b => a = b
  | PyVal.int a, PyVal.int b => a = b
  | PyVal.str a, PyVal.str b => a = b
  | PyVal.bytes a, PyVal.bytes b => a = b
  | PyVal.list a, PyVal.list b => pyBEqList a b
  | PyVal.dict a, PyVal.dict b => pyBEqPairs a b
  | _, _ => false

/-- Elementwise equality of value lists. -/
def pyBEqList : List PyVal → List PyVal → Bool
  | [], [] => true
  | a :: as_, b :: bs => pyBEq a b && pyBEqList as_ bs
  | _, _ => false

/-- Elementwise equality of dict bodies. -/
def pyBEqPairs : List (String × PyVal) → List (String × PyVal) → Bool
  | [], [] => true
  | (ka, va) :: as_, (kb, vb) :: bs =>
    ka = kb && pyBEq va vb && pyBEqPairs as_ bs
  | _, _ => false
end

/-- Lookup in a dict body (Python dict keys are unique; first match). -/
def lookupD (kvs : List (String × PyVal)) (k : String) (dflt : PyVal) : PyVal :=
  match kvs.find? (fun kv => kv.1 = k) with
  | Option.none => dflt
  | Option.some kv => kv.2

/-- Model of Python `v.get(k, dflt)`: succeeds on dicts, raises
AttributeError on every other value. -/
def pyGet (v : PyVal) (k : String) (dflt : PyVal) : Except PyExc PyVal :=
  match v with
  | PyVal.dict kvs => Except.ok (lookupD kvs k dflt)
  | _ => Except.error PyExc.attributeError

/-- Model of Python `len(v)`: defined on sized containers, TypeError
otherwise. -/
def pyLen (v : PyVal) : Except PyExc Nat :=
  match v with
  | PyVal.str s => Except.ok s.length
  | PyVal.bytes bs => Except.ok bs.length
  | PyVal.list vs => Except.ok vs.length
  | PyVal.dict kvs => Except.ok kvs.length
  | _ => Except.error PyExc.typeError

/-- Model of Python iteration `for x in v`: lists yield elements, strings
yield one-character strings, bytes yield ints, dicts yield keys; other
values raise TypeError. -/
def pyIter (v : PyVal) : Except PyExc (List PyVal) :=
  match v with
  | PyVal.list vs => Except.ok vs
  | PyVal.str s => Except.ok (s.data.map (fun c => PyVal.str (String.mk [c])))
  | PyVal.bytes bs => Except.ok (bs.map (fun b => PyVal.int (Int.ofNat b)))
  | PyVal.dict kvs => Except.ok (kvs.map (fun kv => PyVal.str kv.1))
  | _ => Except.error PyExc.typeError

/-- Python `v == s` for a string literal `s`: no non-string builtin value
compares equal to a string. -/
def pyEqStr (v : PyVal) (s : String) : Bool :=
  match v with
  | PyVal.str t => t = s
  | _ => false

/-- Whether a value is a dict (Python `isinstance(v, dict)`). -/
def pyIsDict (v : PyVal) : Bool :=
  match v with
  | PyVal.dict _ => true
  | _ => false

/-- Whether a value can be used as a dict key (lists and dicts are
unhashable in Python). -/
def pyHashable (v : PyVal) : Bool :=
  match v with
  | PyVal.list _ => false
  | PyVal.dict _ => false
  | _ => true

/-- A single-quote character, used when rendering Python reprs. -/
def sQuote : String := String.mk [Char.ofNat 39]

/-- Hexadecimal digit for byte escapes. -/
def hexDigit (n : Nat) : Char :=
  if n < 10 then Char.ofNat (48 + n) else Char.ofNat (87 + n)

/-- Rendering of one byte inside a bytes repr, following CPython. -/
def byteEsc (b : Nat) : String :=
  if b = 9 then "\\t"
  else if b = 10 then "\\n"
  else if b = 13 then "\\r"
  else if b = 39 then "\\" ++ sQuote
  else if b = 92 then "\\\\"
  else if 32 ≤ b ∧ b < 127 then String.mk [Char.ofNat b]
  else "\\x" ++ String.mk [hexDigit (b / 16 % 16), hexDigit (b % 16)]

/-- Body of a bytes repr. -/
def bytesBody (bs : List Nat) : String :=
  String.join (bs.map byteEsc)

/-- Comma-separated join as used by container reprs. -/
def joinComma (ss : List String) : String :=
  String.intercalate ", " ss

mutual
/-- Python `repr(v)` (string escaping inside reprs is elided). -/
def pyRepr : PyVal → String
  | PyVal.none => "None"
  | PyVal.bool true => "True"
  | PyVal.bool false => "False"
  | PyVal.int n => toString n
  | PyVal.str s => sQuote ++ s ++ sQuote
  | PyVal.bytes bs => "b" ++ sQuote ++ bytesBody bs ++ sQuote
  | PyVal.list vs => "[" ++ joinComma (pyReprList vs) ++ "]"
  | PyVal.dict kvs => "\x7b" ++ joinComma (pyReprPairs kvs) ++ "\x7d"

/-- Reprs of the elements of a list. -/
def pyReprList : List PyVal → List String
  | [] => []
  | v :: vs => pyRepr v :: pyReprList vs

/-- Reprs of the key/value pairs of a dict. -/
def pyReprPairs : List (String × PyVal) → List String
  | [] => []
  | (k, v) :: kvs => (sQuote ++ k ++ sQuote ++ ": " ++ pyRepr v) :: pyReprPairs kvs
end

/-- Python `str(v)`: identity on strings, repr on everything else that
matters here. -/
def pyStr (v : PyVal) : String :=
  match v with
  | PyVal.str s => s
  | v => pyRepr v

/-- ASCII model of the regex class \s (plus the two extra ASCII blanks
Python treats as whitespace). -/
def isSpaceCh (c : Char) : Bool :=
  c = ' ' || c = '\t' || c = '\n' || c = '\r' || c = Char.ofNat 11 || c = Char.ofNat 12

/-- ASCII model of the regex class \w. -/
def isWordCh (c : Char) : Bool :=
  c.isAlphanum || c = '_'

/-- Python str.strip(): drop whitespace from both ends. -/
def stripChars (cs : List Char) : List Char :=
  ((cs.dropWhile isSpaceCh).reverse.dropWhile isSpaceCh).reverse

/-- The effect of re.sub applied with pattern \s+ and replacement a single
space: each maximal whitespace run becomes one space.  The boolean records
whether the previous character was part of a whitespace run. -/
def collapseRun : List Char → Bool → List Char
  | [], _ => []
  | c :: rest, prevSpace =>
    if isSpaceCh c then
      if prevSpace then collapseRun rest true
      else ' ' :: collapseRun rest true
    else c :: collapseRun rest false

/-- Python s.replace applied to double each double-quote character. -/
def escapeQuotes : List Char → List Char
  | [] => []
  | c :: rest =>
    if c = '"' then '"' :: '"' :: escapeQuotes rest
    else c :: escapeQuotes rest

/-- FirehoseMonitor.clean_text on a string input (strip, collapse
whitespace runs, double quotes). -/
def clean_text_s (s : String) : String :=
  String.mk (escapeQuotes (collapseRun (stripChars s.data) false))

/-- FirehoseMonitor.clean_text on a dynamically typed input: None yields
the empty string, every other value is first converted with str(). -/
def clean_text_py (v : PyVal) : String :=
  match v with
  | PyVal.none => ""
  | v => clean_text_s (pyStr v)

/-- One left-to-right scan implementing re.findall with pattern
°#(\w+)°: the accumulator holds the (reversed) word characters of the
hashtag currently being read, if any. -/
def scanTags : List Char → Option (List Char) → List String
  | [], Option.none => []
  | [], Option.some acc =>
    if acc.isEmpty then [] else [String.mk acc.reverse]
  | c :: rest, Option.none =>
    if c = '#' then scanTags rest (Option.some [])
    else scanTags rest Option.none
  | c :: rest, Option.some acc =>
    if isWordCh c then scanTags rest (Option.some (c :: acc))
    else
      if acc.isEmpty then
        if c = '#' then scanTags rest (Option.some [])
        else scanTags rest Option.none
      else
        String.mk acc.reverse ::
          (if c = '#' then scanTags rest (Option.some [])
           else scanTags rest Option.none)

/-- FirehoseMonitor.extract_hashtags: the regex matches of #(\w+) in
order of appearance, neither deduplicated nor lower-cased. -/
def extract_hashtags (text : String) : List String :=
  scanTags text.data Option.none

/-- Splitting a character list at every slash, keeping empty segments
(the semantics of Python str.split with an explicit separator). -/
def splitSlashAux : List Char → List Char → List (List Char)
  | [], acc => [acc.reverse]
  | c :: rest, acc =>
    if c = '/' then acc.reverse :: splitSlashAux rest []
    else splitSlashAux rest (c :: acc)

/-- Python s.split applied with separator "/". -/
def splitSlash (s : String) : List String :=
  (splitSlashAux s.data []).map String.mk

/-- Python url.split applied with separator "/": succeeds on strings,
raises TypeError on bytes (the separator has the wrong type) and
AttributeError on every other value, which has no split method. -/
def pySplitSlash (v : PyVal) : Except PyExc (List String) :=
  match v with
  | PyVal.str s => Except.ok (splitSlash s)
  | PyVal.bytes _ => Except.error PyExc.typeError
  | _ => Except.error PyExc.attributeError

/-- FirehoseMonitor.extract_domains: url.split on "/" indexed at 2,
with IndexError and AttributeError mapped to the sentinel "unknown";
any other exception propagates. -/
def extract_domains (url : PyVal) : Except PyExc String :=
  match pySplitSlash url with
  | Except.error PyExc.attributeError => Except.ok "unknown"
  | Except.error e => Except.error e
  | Except.ok parts =>
    match parts.get? 2 with
    | Option.some seg => Except.ok seg
    | Option.none => Except.ok "unknown"

/-- extract_domains specialised to string inputs, on which it never
raises; used by the pipeline, where the url argument is a string. -/
def extractDomainsStr (s : String) : String :=
  match (splitSlash s).get? 2 with
  | Option.some seg => seg
  | Option.none => "unknown"

/-- FirehoseMonitor.get_user_dir's sanitisation of an author DID: each of
the characters < > : " / \ | ? * is replaced by an underscore. -/
def sanitizeDid (did : String) : String :=
  String.mk
    (did.data.map
      (fun c =>
        if c = '<' || c = '>' || c = ':' || c = '"' || c = '/' ||
           c = '\\' || c = '|' || c = '?' || c = '*' then '_' else c))

/-- ASCII lower-casing of one character (the model of Python str.lower
restricted to ASCII, consistent with the ASCII regex classes above). -/
def lowerCh (c : Char) : Char :=
  if 'A' ≤ c ∧ c ≤ 'Z' then Char.ofNat (c.toNat + 32) else c

/-- ASCII model of Python str.lower. -/
def lowerStr (s : String) : String :=
  String.mk (s.data.map lowerCh)

/-- The three per-author table files the writer thread appends to. -/
inductive TableKind where
  | posts
  | links
  | media
deriving DecidableEq, Repr

/-- Identity of a physical table file: the sanitised author directory and
the table inside it. -/
structure FileId where
  author : String
  table : TableKind
deriving DecidableEq, Repr

/-- One task on the file queue: target file, data row, header row
(FirehoseMonitor.file_writer consumes triples of exactly this shape). -/
structure WriteTask where
  path : FileId
  row : List String
  header : List String
deriving DecidableEq, Repr

/-- One feature of a richtext facet.  The pipeline reads only
feature.get with key $type (absent modelled as a string that is not the
link type) and feature.get with key uri (default the empty string). -/
structure Feature where
  ftype : String
  uri : String
deriving DecidableEq, Repr

/-- One facet: a list of features (facet.get with key features,
default the empty list). -/
structure Facet where
  features : List Feature
deriving DecidableEq, Repr

/-- The reply descriptor, when the record has a reply key with parent
and root uris. -/
structure ReplyRef where
  parent_uri : String
  root_uri : String
deriving DecidableEq, Repr

/-- A decoded post record as handed to process_post.  text and createdAt
model raw_data.get with defaults of the empty string; embed models the
presence of the embed key bound to an arbitrary dynamically typed value;
facets models raw_data.get with key facets and default the empty list. -/
structure RawPost where
  text : String
  createdAt : String
  embed : Option PyVal
  facets : List Facet
  reply : Option ReplyRef

/-- The string Python renders for the uri of the parent of a reply
(empty when the record has no reply key). -/
def replyParent (r : Option ReplyRef) : String :=
  match r with
  | Option.none => ""
  | Option.some rr => rr.parent_uri

/-- The root uri of a reply (empty when the record has no reply key). -/
def replyRoot (r : Option ReplyRef) : String :=
  match r with
  | Option.none => ""
  | Option.some rr => rr.root_uri

/-- Append on a collections.deque with the given maxlen: when the deque
is at capacity the oldest (leftmost) entry is discarded. -/
def dequeAppend (maxlen : Nat) (xs : List Nat) (x : Nat) : List Nat :=
  if maxlen ≤ xs.length then xs.tail ++ [x] else xs ++ [x]

/-- appendleft on a deque of maxlen 5: push at the front, discarding the
rightmost entry at capacity. -/
def pushRecent (xs : List (Nat × String × String)) (e : Nat × String × String) :
    List (Nat × String × String) :=
  e :: (if 5 ≤ xs.length then xs.dropLast else xs)

/-- Increment of a defaultdict(int) keyed by strings. -/
def incr (m : String → Nat) (k : String) : String → Nat :=
  fun x => if x = k then m k + 1 else m x

/-- Increment of the media-type defaultdict, keyed by whatever value
img.get returned (Python dict keys are arbitrary hashable values). -/
def incrPy (m : PyVal → Nat) (k : PyVal) : PyVal → Nat :=
  fun x => if pyBEq x k then m k + 1 else m x

/-- The mutable aggregate state of EnhancedStats.  Times are whole
seconds; deques are lists with their maxlen enforced by dequeAppend;
frequency maps and the active-user set are total functions.  The psutil
memory/cpu samples read the environment and are left untouched here. -/
structure Stats where
  total_posts : Nat
  total_users : Nat
  posts_with_images : Nat
  posts_with_links : Nat
  replies : Nat
  start_time : Nat
  posts_per_minute : List Nat
  posts_per_hour : List Nat
  posts_this_minute : Nat
  minute_start_time : Nat
  language_stats : String → Nat
  most_active_users : String → Nat
  popular_domains : String → Nat
  media_types : PyVal → Nat
  hashtag_stats : String → Nat
  processing_times : List Nat
  memory_usage : List Nat
  cpu_usage : List Nat
  recent_posts : List (Nat × String × String)
  active_users_last_hour : String → Bool
  last_minute_timestamp : Nat
  last_hour_timestamp : Nat

/-- EnhancedStats.__init__ at wall-clock time t. -/
def initStats (t : Nat) : Stats :=
  { total_posts := 0
    total_users := 0
    posts_with_images := 0
    posts_with_links := 0
    replies := 0
    start_time := t
    posts_per_minute := []
    posts_per_hour := []
    posts_this_minute := 0
    minute_start_time := t
    language_stats := fun _ => 0
    most_active_users := fun _ => 0
    popular_domains := fun _ => 0
    media_types := fun _ => 0
    hashtag_stats := fun _ => 0
    processing_times := []
    memory_usage := []
    cpu_usage := []
    recent_posts := []
    active_users_last_hour := fun _ => false
    last_minute_timestamp := t
    last_hour_timestamp := t }

/-- EnhancedStats.update_time_based_metrics at wall-clock time
current_time: the minute window rolls over when at least 60 seconds have
elapsed since the last minute rollover, then the hour window rolls over
when at least 3600 seconds have elapsed since the last hour rollover,
summing the minute history as it stands after the minute branch. -/
def update_time_based_metrics (s : Stats) (current_time : Nat) : Stats :=
  let s1 :=
    if s.last_minute_timestamp + 60 ≤ current_time then
      { s with
        posts_per_minute := dequeAppend 60 s.posts_per_minute s.posts_this_minute
        posts_this_minute := 0
        last_minute_timestamp := current_time }
    else s
  if s1.last_hour_timestamp + 3600 ≤ current_time then
    { s1 with
      posts_per_hour := dequeAppend 24 s1.posts_per_hour s1.posts_per_minute.sum
      last_hour_timestamp := current_time
      active_users_last_hour := fun _ => false }
  else s1

/-- The header row of posts.csv (write_to_user_files). -/
def postHeaders : List String :=
  ["timestamp", "text", "has_images", "has_links", "is_reply",
   "reply_to_uri", "thread_root_uri", "image_count", "link_count",
   "hashtag_count"]

/-- The header row of links.csv. -/
def linkHeaders : List String :=
  ["timestamp", "url", "domain", "context_text"]

/-- The header row of media.csv. -/
def mediaHeaders : List String :=
  ["timestamp", "image_alt", "image_type", "context_text"]

/-- The number of link features over all facets, as summed by the
generator expression computing link_count in write_to_user_files. -/
def countLinkFeatures (facets : List Facet) : Nat :=
  (facets.map
    (fun fa =>
      (fa.features.filter
        (fun f => f.ftype = "app.bsky.richtext.facet#link")).length)).sum

/-- The evaluation of has_images and image_count at the top of
write_to_user_files.  has_images evaluates
raw_data['embed'].get applied to the $type key whenever the embed key is
present, which raises AttributeError when the bound value is not a dict;
image_count only touches the embed when has_images is true. -/
def hasImagesCalc (embed : Option PyVal) : Except PyExc (Bool × Nat) :=
  match embed with
  | Option.none => Except.ok (false, 0)
  | Option.some v =>
    match pyGet v "$type" PyVal.none with
    | Except.error e => Except.error e
    | Except.ok t =>
      let has_images := pyEqStr t "app.bsky.embed.images"
      if has_images then
        match pyGet v "images" (PyVal.list []) with
        | Except.error e => Except.error e
        | Except.ok imgs =>
          match pyLen imgs with
          | Except.error e => Except.error e
          | Except.ok n => Except.ok (true, n)
      else Except.ok (false, 0)

/-- The loop writing one media.csv task per image.  Each iteration reads
img.get for alt and mime (raising AttributeError when img is not a
dict); tasks enqueued before a raise are kept. -/
def mediaTaskLoop (safe created_at text : String) :
    List PyVal → List WriteTask × Option PyExc
  | [] => ([], Option.none)
  | img :: rest =>
    match pyGet img "alt" (PyVal.str "") with
    | Except.error e => ([], Option.some e)
    | Except.ok alt =>
      match pyGet img "mime" (PyVal.str "") with
      | Except.error e => ([], Option.some e)
      | Except.ok mime =>
        let task : WriteTask :=
          { path := { author := safe, table := TableKind.media }
            row := [created_at, clean_text_py alt, pyStr mime, clean_text_s text]
            header := mediaHeaders }
        let res := mediaTaskLoop safe created_at text rest
        (task :: res.1, res.2)

/-- The media section of write_to_user_files: iterate over
raw_data['embed'].get with the images key (iteration over a non-list
raises). -/
def mediaTasks (safe created_at text : String) (embed : Option PyVal) :
    List WriteTask × Option PyExc :=
  match embed with
  | Option.none => ([], Option.none)
  | Option.some v =>
    match pyGet v "images" (PyVal.list []) with
    | Except.error e => ([], Option.some e)
    | Except.ok imgs =>
      match pyIter imgs with
      | Except.error e => ([], Option.some e)
      | Except.ok l => mediaTaskLoop safe created_at text l

/-- FirehoseMonitor.write_to_user_files: builds the posts.csv task, then
one links.csv task per link feature, then one media.csv task per image.
The result is the list of tasks put on the file queue before any raise,
together with the exception that escaped, if any.  A raise while
evaluating has_images or image_count happens before the posts task is
enqueued. -/
def write_to_user_files (raw : RawPost) (author_did created_at text : String) :
    List WriteTask × Option PyExc :=
  let safe := sanitizeDid author_did
  match hasImagesCalc raw.embed with
  | Except.error e => ([], Option.some e)
  | Except.ok hi =>
    let has_images := hi.1
    let image_count := hi.2
    let has_links := !raw.facets.isEmpty
    let link_count := countLinkFeatures raw.facets
    let hashtags := extract_hashtags text
    let post_row : List String :=
      [created_at,
       clean_text_s text,
       if has_images then "1" else "0",
       if has_links then "1" else "0",
       if raw.reply.isSome then "1" else "0",
       replyParent raw.reply,
       replyRoot raw.reply,
       toString image_count,
       toString link_count,
       toString hashtags.length]
    let postTask : WriteTask :=
      { path := { author := safe, table := TableKind.posts }
        row := post_row
        header := postHeaders }
    let linkTasks : List WriteTask :=
      if has_links then
        raw.facets.flatMap
          (fun fa =>
            fa.features.filterMap
              (fun f =>
                if f.ftype = "app.bsky.richtext.facet#link" then
                  Option.some
                    { path := { author := safe, table := TableKind.links }
                      row := [created_at, f.uri, extractDomainsStr f.uri,
                              clean_text_s text]
                      header := linkHeaders }
                else Option.none))
      else []
    let media :=
      if has_images then mediaTasks safe created_at text raw.embed
      else ([], Option.none)
    (postTask :: linkTasks ++ media.1, media.2)

/-- The state of the data directory that the claims observe: the set of
user directories, the per-directory .counted marker, and the contents of
the per-author table files. -/
structure FsState where
  dirs : List String
  counted : String → Bool
  files : FileId → Option (List (List String))

/-- Directory creation in get_user_dir (mkdir with exist_ok). -/
def addDir (fs : FsState) (d : String) : FsState :=
  if d ∈ fs.dirs then fs else { fs with dirs := fs.dirs ++ [d] }

/-- Creation of the .counted marker file. -/
def setCounted (fs : FsState) (d : String) : FsState :=
  { fs with counted := fun x => if x = d then true else fs.counted x }

/-- The combined state of the monitor as the claims observe it: the
statistics, the data directory, and the pending file queue in enqueue
order. -/
structure MonState where
  stats : Stats
  fs : FsState
  queue : List WriteTask

/-- The block of unconditional statistic updates at the top of
process_post (total posts, minute counter, active set, per-author
frequency, recent-posts ring). -/
def statsPhase1 (st : Stats) (author text : String) (now : Nat) : Stats :=
  { st with
    total_posts := st.total_posts + 1
    posts_this_minute := st.posts_this_minute + 1
    active_users_last_hour :=
      fun x => if x = author then true else st.active_users_last_hour x
    most_active_users := incr st.most_active_users author
    recent_posts := pushRecent st.recent_posts (now, author, clean_text_s text) }

/-- The media loop of the embed-statistics block in process_post: each
image contributes one count to the media-type frequency map, keyed by
img.get with the mime key and default the string unknown; a non-dict
image raises at img.get, an unhashable key raises at the map update, and
in either case the statistics accumulated so far are kept (modelled by
carrying them in the error branch). -/
def mediaStatsLoop (st : Stats) : List PyVal → Except Stats Stats
  | [] => Except.ok st
  | img :: rest =>
    match pyGet img "mime" (PyVal.str "unknown") with
    | Except.error _ => Except.error st
    | Except.ok mime =>
      if pyHashable mime then
        mediaStatsLoop { st with media_types := incrPy st.media_types mime } rest
      else Except.error st

/-- The embed-statistics block of process_post (lines guarded by
isinstance(embed, dict)): a non-dict embed is skipped silently here;
a dict embed of the images type bumps posts_with_images and then counts
each image's mime type. -/
def embedStats (st : Stats) (embed : Option PyVal) : Except Stats Stats :=
  match embed with
  | Option.none => Except.ok st
  | Option.some v =>
    match v with
    | PyVal.dict kvs =>
      if pyEqStr (lookupD kvs "$type" PyVal.none) "app.bsky.embed.images" then
        let st1 := { st with posts_with_images := st.posts_with_images + 1 }
        match pyIter (lookupD kvs "images" (PyVal.list [])) with
        | Except.error _ => Except.error st1
        | Except.ok imgs => mediaStatsLoop st1 imgs
      else Except.ok st
    | _ => Except.ok st

/-- One feature of the link-statistics loop of process_post: a link
feature bumps posts_with_links and, when the extracted domain is not the
sentinel, the domain frequency map. -/
def linkFeatureStep (st : Stats) (f : Feature) : Stats :=
  if f.ftype = "app.bsky.richtext.facet#link" then
    let st1 := { st with posts_with_links := st.posts_with_links + 1 }
    let domain := extractDomainsStr f.uri
    if domain ≠ "unknown" then
      { st1 with popular_domains := incr st1.popular_domains domain }
    else st1
  else st

/-- The inner loop over one facet's features. -/
def linkFacetStep (st : Stats) (fa : Facet) : Stats :=
  fa.features.foldl linkFeatureStep st

/-- The link-statistics block of process_post, guarded by the truthiness
of raw_data.get with the facets key. -/
def linkStats (st : Stats) (facets : List Facet) : Stats :=
  if facets.isEmpty then st else facets.foldl linkFacetStep st

/-- One hashtag of the hashtag loop of process_post: counted after
lower-casing. -/
def hashtagStep (st : Stats) (tag : String) : Stats :=
  { st with hashtag_stats := incr st.hashtag_stats (lowerStr tag) }

/-- The hashtag block of process_post. -/
def hashtagStats (st : Stats) (text : String) : Stats :=
  (extract_hashtags text).foldl hashtagStep st

/-- FirehoseMonitor.process_post at wall-clock time now.  The body is the
try block of the source: first-seen marker handling, the unconditional
statistics, the embed statistics, the link statistics, the hashtags,
then write_to_user_files (whose tasks go on the queue) and, only when
nothing raised, the time-based rollover and the latency sample (zero in
this whole-second model, since the event is processed instantaneously).
Any raise is caught by the enclosing except, keeping every state change
already applied. -/
def process_post (raw : RawPost) (author_did : String) (now : Nat)
    (m : MonState) : MonState :=
  let text := raw.text
  let created_at := raw.createdAt
  let safe := sanitizeDid author_did
  let fs1 := addDir m.fs safe
  let fs2 := if fs1.counted safe then fs1 else setCounted fs1 safe
  let st0 :=
    { m.stats with total_users :=
        if fs1.counted safe then m.stats.total_users
        else m.stats.total_users + 1 }
  let st1 := statsPhase1 st0 author_did text now
  match embedStats st1 raw.embed with
  | Except.error stE => { stats := stE, fs := fs2, queue := m.queue }
  | Except.ok st2 =>
    let st3 := linkStats st2 raw.facets
    let st4 := hashtagStats st3 text
    let wr := write_to_user_files raw author_did created_at text
    let q := m.queue ++ wr.1
    match wr.2 with
    | Option.some _ => { stats := st4, fs := fs2, queue := q }
    | Option.none =>
      let st5 := update_time_based_metrics st4 now
      let st6 :=
        { st5 with processing_times := dequeAppend 1000 st5.processing_times 0 }
      { stats := st6, fs := fs2, queue := q }

/-- One task processed by the writer thread
(FirehoseMonitor.file_writer): open-or-create, write the header exactly
when the file did not exist, then append the data row. -/
def writeFileTask (files : FileId → Option (List (List String)))
    (t : WriteTask) : FileId → Option (List (List String)) :=
  fun p =>
    if p = t.path then
      match files t.path with
      | Option.none => Option.some [t.header, t.row]
      | Option.some rows => Option.some (rows ++ [t.row])
    else files p

/-- The writer thread draining a list of tasks in FIFO order. -/
def runWriter (files : FileId → Option (List (List String)))
    (tasks : List WriteTask) : FileId → Option (List (List String)) :=
  tasks.foldl writeFileTask files

/-- Whether a user directory contains any csv file (the only csv files
ever created are the three tables). -/
def hasData (files : FileId → Option (List (List String))) (d : String) : Bool :=
  (files { author := d, table := TableKind.posts }).isSome ||
  (files { author := d, table := TableKind.links }).isSome ||
  (files { author := d, table := TableKind.media }).isSome

/-- FirehoseMonitor.init_user_count: the startup pre-scan counts the user
directories that contain csv data, touching the .counted marker of
exactly those, and the count becomes the new total user count. -/
def init_user_count (fs : FsState) : FsState × Nat :=
  let total := fs.dirs.countP (fun d => hasData fs.files d)
  ({ fs with
      counted := fun x =>
        if x ∈ fs.dirs ∧ hasData fs.files x = true then true
        else fs.counted x },
   total)

/-- The data rows of the tasks targeting one file, in dequeue order. -/
def rowsFor (p : FileId) : List WriteTask → List (List String)
  | [] => []
  | t :: ts => if t.path = p then t.row :: rowsFor p ts else rowsFor p ts

/-- The file written by the writer for one target, as the claims predict
it: data rows of the tasks targeting the file appended in dequeue order,
under a header row written exactly when the file did not previously
exist. -/
def expectedContent (hdr : FileId → List String)
    (files : FileId → Option (List (List String)))
    (tasks : List WriteTask) (p : FileId) : Option (List (List String)) :=
  match files p with
  | Option.none =>
    if rowsFor p tasks = [] then Option.none
    else Option.some (hdr p :: rowsFor p tasks)
  | Option.some rows => Option.some (rows ++ rowsFor p tasks)

/-- Labels of the transitions of the shutdown model: a record accepted by
the ingestion path and enqueued, the poison pill pushed by the shutdown
handler, the writer flushing one task, the writer observing the pill and
exiting, the main thread's join returning, and the final analytics
export. -/
inductive ShutLabel where
  | ingest (t : WriteTask)
  | sendPill
  | writerTask (t : WriteTask)
  | writerStop
  | joinWriter
  | exportAnalytics

/-- State of the shutdown model: the file queue in FIFO order (the pill
is the None entry), the ghost list of tasks enqueued before the pill,
and the progress flags of the two threads.  flushed records the rows the
writer has physically appended, in order. -/
structure ShutState where
  queue : List (Option WriteTask)
  prePill : List WriteTask
  pillSent : Bool
  writerExited : Bool
  joined : Bool
  exported : Bool
  flushed : List WriteTask

/-- The initial state: empty queue, nothing sent, nothing flushed. -/
def shutInit : ShutState :=
  { queue := [], prePill := [], pillSent := false, writerExited := false,
    joined := false, exported := false, flushed := [] }

/-- Transitions of the shutdown model, read off FirehoseMonitor.start and
file_writer.  The ingestion transition has no guard: the firehose client
runs in a daemon thread that nothing stops, so records keep arriving
even after the pill is on the queue.  The writer dequeues FIFO and exits
on the pill; join requires the writer to have exited; the analytics
export requires join to have returned. -/
inductive ShutStep : ShutState → ShutLabel → ShutState → Prop where
  | ingest (s : ShutState) (t : WriteTask) :
      ShutStep s (ShutLabel.ingest t)
        { s with
          queue := s.queue ++ [Option.some t]
          prePill := if s.pillSent then s.prePill else s.prePill ++ [t] }
  | sendPill (s : ShutState) (h : s.pillSent = false) :
      ShutStep s ShutLabel.sendPill
        { s with queue := s.queue ++ [Option.none], pillSent := true }
  | writerTask (s : ShutState) (t : WriteTask) (rest : List (Option WriteTask))
      (hq : s.queue = Option.some t :: rest) (hw : s.writerExited = false) :
      ShutStep s (ShutLabel.writerTask t)
        { s with queue := rest, flushed := s.flushed ++ [t] }
  | writerStop (s : ShutState) (rest : List (Option WriteTask))
      (hq : s.queue = Option.none :: rest) (hw : s.writerExited = false) :
      ShutStep s ShutLabel.writerStop
        { s with queue := rest, writerExited := true }
  | joinWriter (s : ShutState) (hp : s.pillSent = true)
      (hw : s.writerExited = true) (hj : s.joined = false) :
      ShutStep s ShutLabel.joinWriter { s with joined := true }
  | exportAnalytics (s : ShutState) (hj : s.joined = true)
      (he : s.exported = false) :
      ShutStep s ShutLabel.exportAnalytics { s with exported := true }

/-- Reachability of a shutdown-model state from the initial state. -/
def ShutReach (s : ShutState) : Prop :=
  Relation.ReflTransGen (fun a b => ∃ l, ShutStep a l b) shutInit s

/-- Inductive invariant of the shutdown model: before the pill the queue
holds exactly the not-yet-flushed pre-pill tasks in order; after the
pill and before writer exit the queue is those tasks, then the pill,
then the post-pill tasks; once the writer has exited it has flushed
exactly the pre-pill tasks, in order; join implies writer exit, export
implies join. -/
def ShutInv (s : ShutState) : Prop :=
  (s.joined = true → s.writerExited = true ∧ s.pillSent = true) ∧
  (s.exported = true → s.joined = true) ∧
  (s.pillSent = false →
    s.writerExited = false ∧ s.joined = false ∧
    ∃ pending : List WriteTask, s.queue = pending.map Option.some ∧
      s.prePill = s.flushed ++ pending) ∧
  (s.pillSent = true → s.writerExited = false →
    ∃ pending post : List WriteTask,
      s.queue = pending.map Option.some ++
        Option.none :: post.map Option.some ∧
      s.prePill = s.flushed ++ pending) ∧
  (s.writerExited = true → s.pillSent = true ∧ s.flushed = s.prePill)

/-- The record of the scenario of C1 and C8 with the embed key present
and bound to None: its decoded dict is
text hello #world, createdAt 2024-01-01T00:00:00Z, facets [], embed None. -/
def rawNullEmbed : RawPost :=
  { text := "hello #world"
    createdAt := "2024-01-01T00:00:00Z"
    embed := Option.some PyVal.none
    facets := []
    reply := Option.none }

/-- The same record without the embed key. -/
def rawNoEmbed : RawPost :=
  { text := "hello #world"
    createdAt := "2024-01-01T00:00:00Z"
    embed := Option.none
    facets := []
    reply := Option.none }

/-- A record whose facets carry two link features. -/
def rawTwoLinks : RawPost :=
  { text := "two links"
    createdAt := "2024-01-02T00:00:00Z"
    embed := Option.none
    facets :=
      [{ features :=
          [{ ftype := "app.bsky.richtext.facet#link"
             uri := "https://example.com/a" },
           { ftype := "app.bsky.richtext.facet#link"
             uri := "https://example.org/b" }] }]
    reply := Option.none }

/-- A record with one malformed link uri. -/
def rawBadLink : RawPost :=
  { text := "bad link"
    createdAt := "2024-01-03T00:00:00Z"
    embed := Option.none
    facets :=
      [{ features :=
          [{ ftype := "app.bsky.richtext.facet#link"
             uri := "not-a-url" }] }]
    reply := Option.none }

/-- The empty data directory of a fresh run. -/
def fs0 : FsState :=
  { dirs := [], counted := fun _ => false, files := fun _ => Option.none }

/-- A fresh monitor state at wall-clock time zero. -/
def m0 : MonState :=
  { stats := initStats 0, fs := fs0, queue := [] }

/-- A second write task to the same file as dummyTask. -/
def dummyTask2 : WriteTask :=
  { path := { author := "a", table := TableKind.posts }
    row := ["r2"], header := ["h"] }

/-- A one-user data directory whose marker agrees with its csv data, as
left behind by a run whose queue was flushed. -/
def fsMark : FsState :=
  { dirs := ["did_abc"]
    counted := fun x => x = "did_abc"
    files := fun p =>
      if p = { author := "did_abc", table := TableKind.posts } then
        Option.some [postHeaders]
      else Option.none }

/-- The statistics carried by either branch of a fallible statistics
block (on a raise, the mutations already applied are kept). -/
def exStats : Except Stats Stats → Stats
  | Except.ok s => s
  | Except.error s => s

/-- Whether a fallible statistics block completed without raising. -/
def isOkB : Except Stats Stats → Bool
  | Except.ok _ => true
  | Except.error _ => false

/-- Number of entries of a list whose lower-casing is the given tag. -/
def countLower (tag : String) : List String → Nat
  | [] => 0
  | t :: l => (if lowerStr t = tag then 1 else 0) + countLower tag l

/-- Number of occurrences of a (lower-cased) tag among the hashtags of a
text, as counted by the hashtag loop of process_post. -/
def countTagOcc (tag text : String) : Nat :=
  countLower tag (extract_hashtags text)

/-- Whether the embed-statistics block of process_post completes without
raising; this depends only on the embed value, not on the statistics it
starts from. -/
def embedOk (e : Option PyVal) : Bool :=
  isOkB (embedStats (initStats 0) e)

/-- A sample write task for the shutdown model. -/
def dummyTask : WriteTask :=
  { path := { author := "a", table := TableKind.posts }
    row := ["r"], header := ["h"] }

/-- The shutdown-model state right after the poison pill is pushed. -/
def pillState : ShutState :=
  { shutInit with queue := shutInit.queue ++ [Option.none], pillSent := true }

/-- The state after the writer observes the pill and exits. -/
def writerDoneState : ShutState :=
  { pillState with queue := [], writerExited := true }

/-- The state after the main thread's join returns. -/
def joinedState : ShutState :=
  { writerDoneState with joined := true }

/-- The state after the final analytics export. -/
def exportedState : ShutState :=
  { joinedState with exported := true }

theorem foldl_proj_const {α β γ : Type _} (g : γ → β → γ) (f : γ → α)
    (hg : ∀ c b, f (g c b) = f c) :
    ∀ (l : List β) (c : γ), f (l.foldl g c) = f c := by
  intro l
  induction l with
  | nil => intro c; rfl
  | cons b l ih =>
    intro c
    simp only [List.foldl_cons]
    rw [ih, hg]

theorem mediaStatsLoop_frame {α : Type _} (f : Stats → α)
    (hf : ∀ st k, f { st with media_types := incrPy st.media_types k } = f st) :
    ∀ (l : List PyVal) (st : Stats), f (exStats (mediaStatsLoop st l)) = f st := by
  intro l
  induction l with
  | nil => intro st; rfl
  | cons img rest ih =>
    intro st
    simp only [mediaStatsLoop]
    cases pyGet img "mime" (PyVal.str "unknown") with
    | error e => rfl
    | ok mime =>
      by_cases h : pyHashable mime = true
      · simp only [h, if_true]
        rw [ih, hf]
      · simp only [h, if_false, Bool.false_eq_true]
        rfl

theorem embedStats_frame {α : Type _} (f : Stats → α)
    (hfm : ∀ st k, f { st with media_types := incrPy st.media_types k } = f st)
    (hfi : ∀ st, f { st with posts_with_images := st.posts_with_images + 1 } = f st) :
    ∀ (e : Option PyVal) (st : Stats), f (exStats (embedStats st e)) = f st := by
  intro e st
  cases e with
  | none => rfl
  | some v =>
    cases v with
    | dict kvs =>
      simp only [embedStats]
      by_cases ht :
          pyEqStr (lookupD kvs "$type" PyVal.none) "app.bsky.embed.images" = true
      · simp only [ht, if_true]
        cases hI : pyIter (lookupD kvs "images" (PyVal.list [])) with
        | error e =>
          show f (exStats (Except.error _)) = f st
          rw [show exStats (Except.error
                { st with posts_with_images := st.posts_with_images + 1 }) =
              { st with posts_with_images := st.posts_with_images + 1 } from rfl]
          exact hfi st
        | ok imgs =>
          rw [mediaStatsLoop_frame f hfm]
          exact hfi st
      · simp only [ht, if_false, Bool.false_eq_true]
        rfl
    | none => rfl
    | bool b => rfl
    | int n => rfl
    | str s => rfl
    | bytes bs => rfl
    | list vs => rfl

theorem linkFeatureStep_frame {α : Type _} (f : Stats → α)
    (h1 : ∀ st, f { st with posts_with_links := st.posts_with_links + 1 } = f st)
    (h2 : ∀ st k, f { st with popular_domains := incr st.popular_domains k } = f st) :
    ∀ (st : Stats) (ft : Feature), f (linkFeatureStep st ft) = f st := by
  intro st ft
  simp only [linkFeatureStep]
  by_cases hl : ft.ftype = "app.bsky.richtext.facet#link"
  · rw [if_pos hl]
    by_cases hd : extractDomainsStr ft.uri ≠ "unknown"
    · rw [if_pos hd]
      exact (h2 { st with posts_with_links := st.posts_with_links + 1 }
        (extractDomainsStr ft.uri)).trans (h1 st)
    · rw [if_neg hd]
      exact h1 st
  · rw [if_neg hl]

theorem linkStats_frame {α : Type _} (f : Stats → α)
    (h1 : ∀ st, f { st with posts_with_links := st.posts_with_links + 1 } = f st)
    (h2 : ∀ st k, f { st with popular_domains := incr st.popular_domains k } = f st) :
    ∀ (st : Stats) (facets : List Facet), f (linkStats st facets) = f st := by
  intro st facets
  simp only [linkStats]
  by_cases he : facets.isEmpty
  · simp only [he, if_true]
  · simp only [he, if_false, Bool.false_eq_true]
    exact foldl_proj_const linkFacetStep f
      (fun c fa => foldl_proj_const linkFeatureStep f
        (fun c' ft => linkFeatureStep_frame f h1 h2 c' ft) fa.features c)
      facets st

theorem hashtagStats_frame {α : Type _} (f : Stats → α)
    (h1 : ∀ st k, f { st with hashtag_stats := incr st.hashtag_stats k } = f st) :
    ∀ (st : Stats) (text : String), f (hashtagStats st text) = f st := by
  intro st text
  exact foldl_proj_const hashtagStep f (fun c tag => h1 c (lowerStr tag))
    (extract_hashtags text) st

theorem update_frame {α : Type _} (f : Stats → α)
    (hm : ∀ (st : Stats) (t : Nat),
      f { st with
            posts_per_minute := dequeAppend 60 st.posts_per_minute st.posts_this_minute
            posts_this_minute := 0
            last_minute_timestamp := t } = f st)
    (hh : ∀ (st : Stats) (t : Nat),
      f { st with
            posts_per_hour := dequeAppend 24 st.posts_per_hour st.posts_per_minute.sum
            last_hour_timestamp := t
            active_users_last_hour := fun _ => false } = f st) :
    ∀ (st : Stats) (t : Nat), f (update_time_based_metrics st t) = f st := by
  intro st t
  simp only [update_time_based_metrics]
  by_cases h1 : st.last_minute_timestamp + 60 ≤ t
  · rw [if_pos h1]
    by_cases h2 : st.last_hour_timestamp + 3600 ≤ t
    · rw [if_pos (show ({ st with
          posts_per_minute := dequeAppend 60 st.posts_per_minute st.posts_this_minute
          posts_this_minute := 0
          last_minute_timestamp := t } : Stats).last_hour_timestamp + 3600 ≤ t from h2)]
      exact (hh { st with
          posts_per_minute := dequeAppend 60 st.posts_per_minute st.posts_this_minute
          posts_this_minute := 0
          last_minute_timestamp := t } t).trans (hm st t)
    · rw [if_neg (show ¬ ({ st with
          posts_per_minute := dequeAppend 60 st.posts_per_minute st.posts_this_minute
          posts_this_minute := 0
          last_minute_timestamp := t } : Stats).last_hour_timestamp + 3600 ≤ t from h2)]
      exact hm st t
  · rw [if_neg h1]
    by_cases h2 : st.last_hour_timestamp + 3600 ≤ t
    · rw [if_pos h2]
      exact hh st t
    · rw [if_neg h2]

theorem update_ppm (s : Stats) (t : Nat) :
    (update_time_based_metrics s t).posts_per_minute =
      if s.last_minute_timestamp + 60 ≤ t then
        dequeAppend 60 s.posts_per_minute s.posts_this_minute
      else s.posts_per_minute := by
  simp only [update_time_based_metrics]
  by_cases h1 : s.last_minute_timestamp + 60 ≤ t
  · rw [if_pos h1, if_pos h1]
    by_cases h2 : s.last_hour_timestamp + 3600 ≤ t
    · rw [if_pos (show ({ s with
          posts_per_minute := dequeAppend 60 s.posts_per_minute s.posts_this_minute
          posts_this_minute := 0
          last_minute_timestamp := t } : Stats).last_hour_timestamp + 3600 ≤ t from h2)]
    · rw [if_neg (show ¬ ({ s with
          posts_per_minute := dequeAppend 60 s.posts_per_minute s.posts_this_minute
          posts_this_minute := 0
          last_minute_timestamp := t } : Stats).last_hour_timestamp + 3600 ≤ t from h2)]
  · rw [if_neg h1, if_neg h1]
    by_cases h2 : s.last_hour_timestamp + 3600 ≤ t
    · rw [if_pos h2]
    · rw [if_neg h2]

theorem update_ptm (s : Stats) (t : Nat) :
    (update_time_based_metrics s t).posts_this_minute =
      if s.last_minute_timestamp + 60 ≤ t then 0 else s.posts_this_minute := by
  simp only [update_time_based_metrics]
  by_cases h1 : s.last_minute_timestamp + 60 ≤ t
  · rw [if_pos h1, if_pos h1]
    by_cases h2 : s.last_hour_timestamp + 3600 ≤ t
    · rw [if_pos (show ({ s with
          posts_per_minute := dequeAppend 60 s.posts_per_minute s.posts_this_minute
          posts_this_minute := 0
          last_minute_timestamp := t } : Stats).last_hour_timestamp + 3600 ≤ t from h2)]
    · rw [if_neg (show ¬ ({ s with
          posts_per_minute := dequeAppend 60 s.posts_per_minute s.posts_this_minute
          posts_this_minute := 0
          last_minute_timestamp := t } : Stats).last_hour_timestamp + 3600 ≤ t from h2)]
  · rw [if_neg h1, if_neg h1]
    by_cases h2 : s.last_hour_timestamp + 3600 ≤ t
    · rw [if_pos h2]
    · rw [if_neg h2]

theorem update_lmt (s : Stats) (t : Nat) :
    (update_time_based_metrics s t).last_minute_timestamp =
      if s.last_minute_timestamp + 60 ≤ t then t else s.last_minute_timestamp := by
  simp only [update_time_based_metrics]
  by_cases h1 : s.last_minute_timestamp + 60 ≤ t
  · rw [if_pos h1, if_pos h1]
    by_cases h2 : s.last_hour_timestamp + 3600 ≤ t
    · rw [if_pos (show ({ s with
          posts_per_minute := dequeAppend 60 s.posts_per_minute s.posts_this_minute
          posts_this_minute := 0
          last_minute_timestamp := t } : Stats).last_hour_timestamp + 3600 ≤ t from h2)]
    · rw [if_neg (show ¬ ({ s with
          posts_per_minute := dequeAppend 60 s.posts_per_minute s.posts_this_minute
          posts_this_minute := 0
          last_minute_timestamp := t } : Stats).last_hour_timestamp + 3600 ≤ t from h2)]
  · rw [if_neg h1, if_neg h1]
    by_cases h2 : s.last_hour_timestamp + 3600 ≤ t
    · rw [if_pos h2]
    · rw [if_neg h2]

theorem update_pph (s : Stats) (t : Nat) :
    (update_time_based_metrics s t).posts_per_hour =
      if s.last_hour_timestamp + 3600 ≤ t then
        dequeAppend 24 s.posts_per_hour
          ((if s.last_minute_timestamp + 60 ≤ t then
              dequeAppend 60 s.posts_per_minute s.posts_this_minute
            else s.posts_per_minute).sum)
      else s.posts_per_hour := by
  simp only [update_time_based_metrics]
  by_cases h1 : s.last_minute_timestamp + 60 ≤ t
  · rw [if_pos h1, if_pos h1]
    by_cases h2 : s.last_hour_timestamp + 3600 ≤ t
    · rw [if_pos (show ({ s with
          posts_per_minute := dequeAppend 60 s.posts_per_minute s.posts_this_minute
          posts_this_minute := 0
          last_minute_timestamp := t } : Stats).last_hour_timestamp + 3600 ≤ t from h2),
        if_pos h2]
    · rw [if_neg (show ¬ ({ s with
          posts_per_minute := dequeAppend 60 s.posts_per_minute s.posts_this_minute
          posts_this_minute := 0
          last_minute_timestamp := t } : Stats).last_hour_timestamp + 3600 ≤ t from h2),
        if_neg h2]
  · rw [if_neg h1, if_neg h1]
    by_cases h2 : s.last_hour_timestamp + 3600 ≤ t
    · rw [if_pos h2, if_pos h2]
    · rw [if_neg h2, if_neg h2]

theorem update_active (s : Stats) (t : Nat) :
    (update_time_based_metrics s t).active_users_last_hour =
      if s.last_hour_timestamp + 3600 ≤ t then (fun _ => false)
      else s.active_users_last_hour := by
  simp only [update_time_based_metrics]
  by_cases h1 : s.last_minute_timestamp + 60 ≤ t
  · rw [if_pos h1]
    by_cases h2 : s.last_hour_timestamp + 3600 ≤ t
    · rw [if_pos (show ({ s with
          posts_per_minute := dequeAppend 60 s.posts_per_minute s.posts_this_minute
          posts_this_minute := 0
          last_minute_timestamp := t } : Stats).last_hour_timestamp + 3600 ≤ t from h2),
        if_pos h2]
    · rw [if_neg (show ¬ ({ s with
          posts_per_minute := dequeAppend 60 s.posts_per_minute s.posts_this_minute
          posts_this_minute := 0
          last_minute_timestamp := t } : Stats).last_hour_timestamp + 3600 ≤ t from h2),
        if_neg h2]
  · rw [if_neg h1]
    by_cases h2 : s.last_hour_timestamp + 3600 ≤ t
    · rw [if_pos h2, if_pos h2]
    · rw [if_neg h2, if_neg h2]

theorem addDir_counted (fs : FsState) (d : String) :
    (addDir fs d).counted = fs.counted := by
  simp only [addDir]
  split
  · rfl
  · rfl

theorem pyGet_nonDict (v : PyVal) (k : String) (dflt : PyVal)
    (h : pyIsDict v = false) :
    pyGet v k dflt = Except.error PyExc.attributeError := by
  cases v with
  | dict kvs => simp [pyIsDict] at h
  | none => rfl
  | bool b => rfl
  | int n => rfl
  | str s => rfl
  | bytes bs => rfl
  | list vs => rfl

theorem embedStats_nonDict (st : Stats) (v : PyVal) (h : pyIsDict v = false) :
    embedStats st (Option.some v) = Except.ok st := by
  cases v with
  | dict kvs => simp [pyIsDict] at h
  | none => rfl
  | bool b => rfl
  | int n => rfl
  | str s => rfl
  | bytes bs => rfl
  | list vs => rfl

theorem write_nonDict (raw : RawPost) (a c t : String) (v : PyVal)
    (he : raw.embed = Option.some v) (h : pyIsDict v = false) :
    write_to_user_files raw a c t = ([], Option.some PyExc.attributeError) := by
  simp only [write_to_user_files, hasImagesCalc, he, pyGet_nonDict v "$type" PyVal.none h]

theorem write_embedNone (raw : RawPost) (a c t : String)
    (he : raw.embed = Option.none) :
    (write_to_user_files raw a c t).2 = Option.none := by
  simp only [write_to_user_files, hasImagesCalc, he]
  rfl

theorem features_pwl (l : List Feature) :
    ∀ st : Stats, (l.foldl linkFeatureStep st).posts_with_links =
      st.posts_with_links +
        (l.filter (fun f => f.ftype = "app.bsky.richtext.facet#link")).length := by
  induction l with
  | nil => intro st; simp
  | cons f l ih =>
    intro st
    simp only [List.foldl_cons, List.filter_cons]
    by_cases hl : f.ftype = "app.bsky.richtext.facet#link"
    · rw [ih]
      have hstep : (linkFeatureStep st f).posts_with_links =
          st.posts_with_links + 1 := by
        simp only [linkFeatureStep]
        rw [if_pos hl]
        by_cases hd : extractDomainsStr f.uri ≠ "unknown"
        · rw [if_pos hd]
        · rw [if_neg hd]
      rw [hstep]
      simp [hl]
      omega
    · rw [ih]
      have hstep : (linkFeatureStep st f).posts_with_links =
          st.posts_with_links := by
        simp only [linkFeatureStep]
        rw [if_neg hl]
      rw [hstep]
      simp [hl]

theorem linkStats_pwl (st : Stats) (facets : List Facet) :
    (linkStats st facets).posts_with_links =
      st.posts_with_links + countLinkFeatures facets := by
  simp only [linkStats]
  by_cases he : facets.isEmpty
  · rw [if_pos he]
    rw [List.isEmpty_iff] at he
    subst he
    simp [countLinkFeatures]
  · rw [if_neg he]
    clear he
    induction facets generalizing st with
    | nil => simp [countLinkFeatures]
    | cons fa l ih =>
      simp only [List.foldl_cons]
      rw [ih]
      simp only [linkFacetStep, features_pwl, countLinkFeatures, List.map_cons,
        List.sum_cons]
      omega

theorem features_domains (l : List Feature)
    (h : ∀ f ∈ l, f.ftype = "app.bsky.richtext.facet#link" →
      extractDomainsStr f.uri = "unknown") :
    ∀ st : Stats, (l.foldl linkFeatureStep st).popular_domains =
      st.popular_domains := by
  induction l with
  | nil => intro st; rfl
  | cons f l ih =>
    intro st
    simp only [List.foldl_cons]
    rw [ih (fun g hg => h g (List.mem_cons_of_mem f hg))]
    simp only [linkFeatureStep]
    by_cases hl : f.ftype = "app.bsky.richtext.facet#link"
    · rw [if_pos hl]
      have hd : ¬ extractDomainsStr f.uri ≠ "unknown" := by
        simp [h f (List.mem_cons_self f l) hl]
      rw [if_neg hd]
    · rw [if_neg hl]

theorem facets_domains (l : List Facet)
    (h : ∀ fa ∈ l, ∀ f ∈ fa.features,
      f.ftype = "app.bsky.richtext.facet#link" →
        extractDomainsStr f.uri = "unknown") :
    ∀ st : Stats, (l.foldl linkFacetStep st).popular_domains =
      st.popular_domains := by
  induction l with
  | nil => intro st; rfl
  | cons fa l ih =>
    intro st
    simp only [List.foldl_cons]
    rw [ih (fun fb hb => h fb (List.mem_cons_of_mem fa hb))]
    exact features_domains fa.features
      (fun f hf => h fa (List.mem_cons_self fa l) f hf) st

theorem linkStats_domains (st : Stats) (facets : List Facet)
    (h : ∀ fa ∈ facets, ∀ f ∈ fa.features,
      f.ftype = "app.bsky.richtext.facet#link" →
        extractDomainsStr f.uri = "unknown") :
    (linkStats st facets).popular_domains = st.popular_domains := by
  simp only [linkStats]
  by_cases he : facets.isEmpty
  · rw [if_pos he]
  · rw [if_neg he]
    exact facets_domains facets h st

theorem tags_count (tag : String) (l : List String) :
    ∀ st : Stats, (l.foldl hashtagStep st).hashtag_stats tag =
      st.hashtag_stats tag + countLower tag l := by
  induction l with
  | nil => intro st; simp [countLower]
  | cons t l ih =>
    intro st
    simp only [List.foldl_cons, countLower]
    rw [ih]
    have hstep : (hashtagStep st t).hashtag_stats tag =
        st.hashtag_stats tag + (if lowerStr t = tag then 1 else 0) := by
      simp only [hashtagStep, incr]
      by_cases hq : lowerStr t = tag
      · rw [if_pos hq.symm, if_pos hq, hq]
      · rw [if_neg (fun hx => hq hx.symm), if_neg hq]
        omega
    rw [hstep]
    omega

theorem hashtagStats_count (st : Stats) (text tag : String) :
    (hashtagStats st text).hashtag_stats tag =
      st.hashtag_stats tag + countTagOcc tag text := by
  simp only [hashtagStats, countTagOcc]
  exact tags_count tag (extract_hashtags text) st

theorem pp_embed_nonDict (raw : RawPost) (a : String) (now : Nat) (m : MonState)
    (v : PyVal) (he : raw.embed = Option.some v) (hv : pyIsDict v = false) :
    process_post raw a now m =
      { stats :=
          hashtagStats
            (linkStats
              (statsPhase1
                { m.stats with total_users :=
                    if (addDir m.fs (sanitizeDid a)).counted (sanitizeDid a) then
                      m.stats.total_users
                    else m.stats.total_users + 1 }
                a raw.text now)
              raw.facets)
            raw.text
        fs :=
          if (addDir m.fs (sanitizeDid a)).counted (sanitizeDid a) then
            addDir m.fs (sanitizeDid a)
          else setCounted (addDir m.fs (sanitizeDid a)) (sanitizeDid a)
        queue := m.queue } := by
  simp only [process_post, he, embedStats_nonDict _ v hv,
    write_nonDict raw a raw.createdAt raw.text v he hv, List.append_nil]

theorem pp_embed_none (raw : RawPost) (a : String) (now : Nat) (m : MonState)
    (he : raw.embed = Option.none) :
    process_post raw a now m =
      { stats :=
          { update_time_based_metrics
              (hashtagStats
                (linkStats
                  (statsPhase1
                    { m.stats with total_users :=
                        if (addDir m.fs (sanitizeDid a)).counted (sanitizeDid a) then
                          m.stats.total_users
                        else m.stats.total_users + 1 }
                    a raw.text now)
                  raw.facets)
                raw.text)
              now with
            processing_times :=
              dequeAppend 1000
                (update_time_based_metrics
                  (hashtagStats
                    (linkStats
                      (statsPhase1
                        { m.stats with total_users :=
                            if (addDir m.fs (sanitizeDid a)).counted (sanitizeDid a) then
                              m.stats.total_users
                            else m.stats.total_users + 1 }
                        a raw.text now)
                      raw.facets)
                    raw.text)
                  now).processing_times 0 }
        fs :=
          if (addDir m.fs (sanitizeDid a)).counted (sanitizeDid a) then
            addDir m.fs (sanitizeDid a)
          else setCounted (addDir m.fs (sanitizeDid a)) (sanitizeDid a)
        queue := m.queue ++ (write_to_user_files raw a raw.createdAt raw.text).1 } := by
  simp only [process_post, he, embedStats,
    write_embedNone raw a raw.createdAt raw.text he]

theorem afterTags_frame (st : Stats) (facets : List Facet) (text : String) :
    (hashtagStats (linkStats st facets) text).total_posts = st.total_posts ∧
    (hashtagStats (linkStats st facets) text).total_users = st.total_users ∧
    (hashtagStats (linkStats st facets) text).posts_this_minute =
      st.posts_this_minute ∧
    (hashtagStats (linkStats st facets) text).posts_per_minute =
      st.posts_per_minute ∧
    (hashtagStats (linkStats st facets) text).posts_per_hour =
      st.posts_per_hour ∧
    (hashtagStats (linkStats st facets) text).last_minute_timestamp =
      st.last_minute_timestamp ∧
    (hashtagStats (linkStats st facets) text).last_hour_timestamp =
      st.last_hour_timestamp ∧
    (hashtagStats (linkStats st facets) text).active_users_last_hour =
      st.active_users_last_hour ∧
    (hashtagStats (linkStats st facets) text).most_active_users =
      st.most_active_users ∧
    (hashtagStats (linkStats st facets) text).recent_posts = st.recent_posts ∧
    (hashtagStats (linkStats st facets) text).posts_with_images =
      st.posts_with_images := by
  refine ⟨?_, ?_, ?_, ?_, ?_, ?_, ?_, ?_, ?_, ?_, ?_⟩
  · exact (hashtagStats_frame (fun s => s.total_posts) (fun _ _ => rfl) _ _).trans
      (linkStats_frame (fun s => s.total_posts) (fun _ => rfl) (fun _ _ => rfl) _ _)
  · exact (hashtagStats_frame (fun s => s.total_users) (fun _ _ => rfl) _ _).trans
      (linkStats_frame (fun s => s.total_users) (fun _ => rfl) (fun _ _ => rfl) _ _)
  · exact (hashtagStats_frame (fun s => s.posts_this_minute) (fun _ _ => rfl) _ _).trans
      (linkStats_frame (fun s => s.posts_this_minute) (fun _ => rfl) (fun _ _ => rfl) _ _)
  · exact (hashtagStats_frame (fun s => s.posts_per_minute) (fun _ _ => rfl) _ _).trans
      (linkStats_frame (fun s => s.posts_per_minute) (fun _ => rfl) (fun _ _ => rfl) _ _)
  · exact (hashtagStats_frame (fun s => s.posts_per_hour) (fun _ _ => rfl) _ _).trans
      (linkStats_frame (fun s => s.posts_per_hour) (fun _ => rfl) (fun _ _ => rfl) _ _)
  · exact (hashtagStats_frame (fun s => s.last_minute_timestamp) (fun _ _ => rfl) _ _).trans
      (linkStats_frame (fun s => s.last_minute_timestamp) (fun _ => rfl) (fun _ _ => rfl) _ _)
  · exact (hashtagStats_frame (fun s => s.last_hour_timestamp) (fun _ _ => rfl) _ _).trans
      (linkStats_frame (fun s => s.last_hour_timestamp) (fun _ => rfl) (fun _ _ => rfl) _ _)
  · exact (hashtagStats_frame (fun s => s.active_users_last_hour) (fun _ _ => rfl) _ _).trans
      (linkStats_frame (fun s => s.active_users_last_hour) (fun _ => rfl) (fun _ _ => rfl) _ _)
  · exact (hashtagStats_frame (fun s => s.most_active_users) (fun _ _ => rfl) _ _).trans
      (linkStats_frame (fun s => s.most_active_users) (fun _ => rfl) (fun _ _ => rfl) _ _)
  · exact (hashtagStats_frame (fun s => s.recent_posts) (fun _ _ => rfl) _ _).trans
      (linkStats_frame (fun s => s.recent_posts) (fun _ => rfl) (fun _ _ => rfl) _ _)
  · exact (hashtagStats_frame (fun s => s.posts_with_images) (fun _ _ => rfl) _ _).trans
      (linkStats_frame (fun s => s.posts_with_images) (fun _ => rfl) (fun _ _ => rfl) _ _)

theorem mediaStatsLoop_ok_irrel (l : List PyVal) :
    ∀ st st' : Stats, isOkB (mediaStatsLoop st l) = isOkB (mediaStatsLoop st' l) := by
  induction l with
  | nil => intro st st'; rfl
  | cons img rest ih =>
    intro st st'
    simp only [mediaStatsLoop]
    cases pyGet img "mime" (PyVal.str "unknown") with
    | error e => rfl
    | ok mime =>
      by_cases h : pyHashable mime = true
      · simp only [h, if_true]
        exact ih _ _
      · simp only [h, if_false, Bool.false_eq_true]
        rfl

theorem embedStats_ok_irrel (e : Option PyVal) (st st' : Stats) :
    isOkB (embedStats st e) = isOkB (embedStats st' e) := by
  cases e with
  | none => rfl
  | some v =>
    cases v with
    | dict kvs =>
      simp only [embedStats]
      by_cases ht :
          pyEqStr (lookupD kvs "$type" PyVal.none) "app.bsky.embed.images" = true
      · simp only [ht, if_true]
        cases pyIter (lookupD kvs "images" (PyVal.list [])) with
        | error e => rfl
        | ok imgs => exact mediaStatsLoop_ok_irrel imgs _ _
      · simp only [ht, if_false, Bool.false_eq_true]
        rfl
    | none => rfl
    | bool b => rfl
    | int n => rfl
    | str s => rfl
    | bytes bs => rfl
    | list vs => rfl

theorem embedOk_spec (e : Option PyVal) (st : Stats) (h : embedOk e = true) :
    ∃ st2, embedStats st e = Except.ok st2 := by
  have hirr := embedStats_ok_irrel e st (initStats 0)
  rw [show isOkB (embedStats (initStats 0) e) = embedOk e from rfl, h] at hirr
  cases hst : embedStats st e with
  | ok s => exact ⟨s, rfl⟩
  | error s =>
    rw [hst] at hirr
    simp [isOkB] at hirr

theorem pp_ok_writeErr (raw : RawPost) (a : String) (now : Nat) (m : MonState)
    (st2 : Stats) (e : PyExc)
    (hok : embedStats
        (statsPhase1
          { m.stats with total_users :=
              if (addDir m.fs (sanitizeDid a)).counted (sanitizeDid a) then
                m.stats.total_users
              else m.stats.total_users + 1 }
          a raw.text now)
        raw.embed = Except.ok st2)
    (hwe : (write_to_user_files raw a raw.createdAt raw.text).2 = Option.some e) :
    process_post raw a now m =
      { stats := hashtagStats (linkStats st2 raw.facets) raw.text
        fs :=
          if (addDir m.fs (sanitizeDid a)).counted (sanitizeDid a) then
            addDir m.fs (sanitizeDid a)
          else setCounted (addDir m.fs (sanitizeDid a)) (sanitizeDid a)
        queue := m.queue ++ (write_to_user_files raw a raw.createdAt raw.text).1 } := by
  simp only [process_post, hok, hwe]

theorem pp_ok_writeOk (raw : RawPost) (a : String) (now : Nat) (m : MonState)
    (st2 : Stats)
    (hok : embedStats
        (statsPhase1
          { m.stats with total_users :=
              if (addDir m.fs (sanitizeDid a)).counted (sanitizeDid a) then
                m.stats.total_users
              else m.stats.total_users + 1 }
          a raw.text now)
        raw.embed = Except.ok st2)
    (hwe : (write_to_user_files raw a raw.createdAt raw.text).2 = Option.none) :
    process_post raw a now m =
      { stats :=
          { update_time_based_metrics
              (hashtagStats (linkStats st2 raw.facets) raw.text) now with
            processing_times :=
              dequeAppend 1000
                (update_time_based_metrics
                  (hashtagStats (linkStats st2 raw.facets) raw.text)
                  now).processing_times 0 }
        fs :=
          if (addDir m.fs (sanitizeDid a)).counted (sanitizeDid a) then
            addDir m.fs (sanitizeDid a)
          else setCounted (addDir m.fs (sanitizeDid a)) (sanitizeDid a)
        queue := m.queue ++ (write_to_user_files raw a raw.createdAt raw.text).1 } := by
  simp only [process_post, hok, hwe]

theorem pp_minute_proj (raw : RawPost) (a : String) (now : Nat) (m : MonState)
    (he : raw.embed = Option.none) :
    (process_post raw a now m).stats.posts_per_minute =
      (if m.stats.last_minute_timestamp + 60 ≤ now then
        dequeAppend 60 m.stats.posts_per_minute (m.stats.posts_this_minute + 1)
       else m.stats.posts_per_minute) ∧
    (process_post raw a now m).stats.posts_this_minute =
      (if m.stats.last_minute_timestamp + 60 ≤ now then 0
       else m.stats.posts_this_minute + 1) ∧
    (process_post raw a now m).stats.last_minute_timestamp =
      (if m.stats.last_minute_timestamp + 60 ≤ now then now
       else m.stats.last_minute_timestamp) := by
  rw [pp_embed_none raw a now m he]
  have hfr := afterTags_frame
    (statsPhase1
      { m.stats with total_users :=
          if (addDir m.fs (sanitizeDid a)).counted (sanitizeDid a) then
            m.stats.total_users
          else m.stats.total_users + 1 }
      a raw.text now)
    raw.facets raw.text
  refine ⟨?_, ?_, ?_⟩
  · show (update_time_based_metrics _ now).posts_per_minute = _
    rw [update_ppm, hfr.2.2.2.1, hfr.2.2.1, hfr.2.2.2.2.2.1]
    rfl
  · show (update_time_based_metrics _ now).posts_this_minute = _
    rw [update_ptm, hfr.2.2.1, hfr.2.2.2.2.2.1]
    rfl
  · show (update_time_based_metrics _ now).last_minute_timestamp = _
    rw [update_lmt, hfr.2.2.2.2.2.1]
    rfl

/-- C3: starting from an empty minute history, with event 1 arriving
before the first minute boundary and event 2 exactly 61 seconds after
event 1, processing event 2 rolls the minute window: the history then
holds exactly one completed entry, equal to the minute counter at the
moment of rollover (both in-flight events included, since each event's
own contribution is recorded before the rollover check), and the counter
is reset to zero.  In general the minute window rolls over iff at least
60 seconds have elapsed since the last minute-rollover timestamp. -/
theorem C3_minute_window (m : MonState) (raw1 raw2 : RawPost) (a1 a2 : String)
    (t1 t2 : Nat)
    (he1 : raw1.embed = Option.none) (he2 : raw2.embed = Option.none)
    (hemp : m.stats.posts_per_minute = [])
    (hmono : m.stats.last_minute_timestamp ≤ t1)
    (h1 : t1 < m.stats.last_minute_timestamp + 60)
    (hgap : t2 = t1 + 61) :
    ((process_post raw2 a2 t2 (process_post raw1 a1 t1 m)).stats.posts_per_minute =
        [m.stats.posts_this_minute + 2] ∧
      (process_post raw2 a2 t2
          (process_post raw1 a1 t1 m)).stats.posts_this_minute = 0) ∧
    (∀ (s : Stats) (now : Nat), s.last_minute_timestamp + 60 ≤ now →
      (update_time_based_metrics s now).posts_per_minute =
          dequeAppend 60 s.posts_per_minute s.posts_this_minute ∧
        (update_time_based_metrics s now).posts_this_minute = 0 ∧
        (update_time_based_metrics s now).last_minute_timestamp = now) ∧
    (∀ (s : Stats) (now : Nat), now < s.last_minute_timestamp + 60 →
      (update_time_based_metrics s now).posts_per_minute = s.posts_per_minute ∧
        (update_time_based_metrics s now).posts_this_minute =
          s.posts_this_minute ∧
        (update_time_based_metrics s now).last_minute_timestamp =
          s.last_minute_timestamp) := by
  refine ⟨?_, ?_, ?_⟩
  · have hp1 := pp_minute_proj raw1 a1 t1 m he1
    have hcond1 : ¬ (m.stats.last_minute_timestamp + 60 ≤ t1) := by omega
    rw [if_neg hcond1, if_neg hcond1, if_neg hcond1] at hp1
    have hp2 := pp_minute_proj raw2 a2 t2 (process_post raw1 a1 t1 m) he2
    have hcond2 :
        (process_post raw1 a1 t1 m).stats.last_minute_timestamp + 60 ≤ t2 := by
      rw [hp1.2.2]
      omega
    rw [if_pos hcond2, if_pos hcond2, if_pos hcond2] at hp2
    rw [hp1.1, hp1.2.1, hemp] at hp2
    constructor
    · rw [hp2.1]
      simp [dequeAppend]
    · exact hp2.2.1
  · intro s now h
    exact ⟨by rw [update_ppm, if_pos h], by rw [update_ptm, if_pos h],
      by rw [update_lmt, if_pos h]⟩
  · intro s now h
    have hneg : ¬ (s.last_minute_timestamp + 60 ≤ now) := by omega
    exact ⟨by rw [update_ppm, if_neg hneg], by rw [update_ptm, if_neg hneg],
      by rw [update_lmt, if_neg hneg]⟩

/-- C7: when at least 3600 seconds have elapsed since the last
hour-rollover timestamp, the hour history gains one entry equal to the
sum of the minute history as it stands after the minute branch (evicting
the oldest entry at the 24-entry capacity), and the set of authors
active in the current hour is cleared. -/
theorem C7_hour_window (s : Stats) (now : Nat)
    (h : s.last_hour_timestamp + 3600 ≤ now) :
    (update_time_based_metrics s now).posts_per_hour =
      (if 24 ≤ s.posts_per_hour.length then s.posts_per_hour.tail
       else s.posts_per_hour) ++
        [(if s.last_minute_timestamp + 60 ≤ now then
            dequeAppend 60 s.posts_per_minute s.posts_this_minute
          else s.posts_per_minute).sum] ∧
    (update_time_based_metrics s now).active_users_last_hour = fun _ => false := by
  constructor
  · rw [update_pph, if_pos h]
    simp only [dequeAppend]
    split
    · rfl
    · rfl
  · rw [update_active, if_pos h]

/-- C8: when the raw record has the embed key bound to a non-dict value,
write_to_user_files raises AttributeError before enqueuing anything, so
the event contributes no row to the file queue, yet every aggregate
statistic updated before the write step (total posts, the minute
counter, the active-author set, the per-author frequency, the
recent-activity ring, the hashtag counts) keeps that event's
contribution: per-event processing is not atomic. -/
theorem C8_non_atomic (m : MonState) (raw : RawPost) (author : String)
    (now : Nat) (v : PyVal)
    (he : raw.embed = Option.some v) (hv : pyIsDict v = false) :
    (write_to_user_files raw author raw.createdAt raw.text).2 =
      Option.some PyExc.attributeError ∧
    (process_post raw author now m).queue = m.queue ∧
    (process_post raw author now m).stats.total_posts =
      m.stats.total_posts + 1 ∧
    (process_post raw author now m).stats.posts_this_minute =
      m.stats.posts_this_minute + 1 ∧
    (process_post raw author now m).stats.active_users_last_hour author =
      true ∧
    (process_post raw author now m).stats.most_active_users author =
      m.stats.most_active_users author + 1 ∧
    (process_post raw author now m).stats.recent_posts =
      (now, author, clean_text_s raw.text) ::
        (if 5 ≤ m.stats.recent_posts.length then m.stats.recent_posts.dropLast
         else m.stats.recent_posts) ∧
    ∀ tag, (process_post raw author now m).stats.hashtag_stats tag =
      m.stats.hashtag_stats tag + countTagOcc tag raw.text := by
  have hwr := write_nonDict raw author raw.createdAt raw.text v he hv
  have hpp := pp_embed_nonDict raw author now m v he hv
  have hfr := afterTags_frame
    (statsPhase1
      { m.stats with total_users :=
          if (addDir m.fs (sanitizeDid author)).counted (sanitizeDid author) then
            m.stats.total_users
          else m.stats.total_users + 1 }
      author raw.text now)
    raw.facets raw.text
  refine ⟨by rw [hwr], ?_, ?_, ?_, ?_, ?_, ?_, ?_⟩
  · rw [hpp]
  · rw [hpp]
    show (hashtagStats (linkStats _ _) _).total_posts = _
    rw [hfr.1]
    rfl
  · rw [hpp]
    show (hashtagStats (linkStats _ _) _).posts_this_minute = _
    rw [hfr.2.2.1]
    rfl
  · rw [hpp]
    show (hashtagStats (linkStats _ _) _).active_users_last_hour author = _
    rw [hfr.2.2.2.2.2.2.2.1]
    show (if author = author then true else _) = true
    rw [if_pos rfl]
  · rw [hpp]
    show (hashtagStats (linkStats _ _) _).most_active_users author = _
    rw [hfr.2.2.2.2.2.2.2.2.1]
    show incr _ author author = _
    simp only [incr, if_pos rfl]
    rfl
  · rw [hpp]
    show (hashtagStats (linkStats _ _) _).recent_posts = _
    rw [hfr.2.2.2.2.2.2.2.2.2.1]
    rfl
  · intro tag
    rw [hpp]
    show (hashtagStats (linkStats _ _) _).hashtag_stats tag = _
    rw [hashtagStats_count]
    have hlink := linkStats_frame (fun s => s.hashtag_stats)
      (fun _ => rfl) (fun _ _ => rfl)
      (statsPhase1
        { m.stats with total_users :=
            if (addDir m.fs (sanitizeDid author)).counted (sanitizeDid author) then
              m.stats.total_users
            else m.stats.total_users + 1 }
        author raw.text now)
      raw.facets
    rw [show (linkStats
        (statsPhase1
          { m.stats with total_users :=
              if (addDir m.fs (sanitizeDid author)).counted (sanitizeDid author) then
                m.stats.total_users
              else m.stats.total_users + 1 }
          author raw.text now)
        raw.facets).hashtag_stats =
      (statsPhase1
        { m.stats with total_users :=
            if (addDir m.fs (sanitizeDid author)).counted (sanitizeDid author) then
              m.stats.total_users
            else m.stats.total_users + 1 }
        author raw.text now).hashtag_stats from hlink]
    rfl

/-- C5: for every table file processed by the writer thread, a header
row is written iff the file did not previously exist, so the first row
of any table file is its header (given that the pre-existing files were
themselves produced this way), and the data rows are appended after it
in dequeue order. -/
theorem C5_writer_header_fifo (hdr : FileId → List String) :
    ∀ (tasks : List WriteTask), (∀ t ∈ tasks, t.header = hdr t.path) →
    ∀ (files : FileId → Option (List (List String))),
      (∀ q rows, files q = Option.some rows → ∃ rest, rows = hdr q :: rest) →
    ∀ p, runWriter files tasks p = expectedContent hdr files tasks p := by
  intro tasks
  induction tasks with
  | nil =>
    intro _ files hinit p
    show files p = expectedContent hdr files [] p
    simp only [expectedContent, rowsFor]
    cases hf : files p with
    | none => rfl
    | some rows => simp
  | cons t ts ih =>
    intro ht files hinit p
    have ht' : ∀ u ∈ ts, u.header = hdr u.path :=
      fun u hu => ht u (List.mem_cons_of_mem t hu)
    have hinit' : ∀ q rows, writeFileTask files t q = Option.some rows →
        ∃ rest, rows = hdr q :: rest := by
      intro q rows hq
      simp only [writeFileTask] at hq
      by_cases hqp : q = t.path
      · rw [if_pos hqp] at hq
        subst hqp
        cases hft : files t.path with
        | none =>
          rw [hft, Option.some_inj] at hq
          exact ⟨[t.row], by rw [← hq, ht t (List.mem_cons_self t ts)]⟩
        | some rows0 =>
          rw [hft, Option.some_inj] at hq
          obtain ⟨rest0, hr0⟩ := hinit t.path rows0 hft
          exact ⟨rest0 ++ [t.row], by rw [← hq, hr0]; simp⟩
      · rw [if_neg hqp] at hq
        exact hinit q rows hq
    rw [show runWriter files (t :: ts) p = runWriter (writeFileTask files t) ts p
        from rfl,
      ih ht' (writeFileTask files t) hinit' p]
    simp only [expectedContent, rowsFor]
    by_cases hp : t.path = p
    · subst hp
      rw [if_pos rfl]
      simp only [writeFileTask, if_pos rfl]
      cases hft : files t.path with
      | none =>
        simp only [if_true]
        rw [ht t (List.mem_cons_self t ts)]
        rfl
      | some rows0 =>
        simp only [if_true]
        simp [List.append_assoc]
    · rw [if_neg hp]
      simp only [writeFileTask]
      rw [if_neg (fun h => hp h.symm)]

theorem pp_embed_err (raw : RawPost) (a : String) (now : Nat) (m : MonState)
    (stE : Stats)
    (hok : embedStats
        (statsPhase1
          { m.stats with total_users :=
              if (addDir m.fs (sanitizeDid a)).counted (sanitizeDid a) then
                m.stats.total_users
              else m.stats.total_users + 1 }
          a raw.text now)
        raw.embed = Except.error stE) :
    process_post raw a now m =
      { stats := stE
        fs :=
          if (addDir m.fs (sanitizeDid a)).counted (sanitizeDid a) then
            addDir m.fs (sanitizeDid a)
          else setCounted (addDir m.fs (sanitizeDid a)) (sanitizeDid a)
        queue := m.queue } := by
  simp only [process_post, hok]

/-- C9: processing one event bumps the posts-with-links counter once per
link feature (not once per post), so an event carrying two link features
makes the counter exceed the total post count. -/
theorem C9_links_per_feature :
    (∀ (m : MonState) (raw : RawPost) (a : String) (now : Nat),
      embedOk raw.embed = true →
      (process_post raw a now m).stats.posts_with_links =
        m.stats.posts_with_links + countLinkFeatures raw.facets) ∧
    ((process_post rawTwoLinks "did:abc" 0 m0).stats.total_posts = 1 ∧
     (process_post rawTwoLinks "did:abc" 0 m0).stats.posts_with_links = 2 ∧
     (process_post rawTwoLinks "did:abc" 0 m0).stats.total_posts <
       (process_post rawTwoLinks "did:abc" 0 m0).stats.posts_with_links) := by
  constructor
  · intro m raw a now hE
    obtain ⟨st2, hok⟩ := embedOk_spec raw.embed
      (statsPhase1
        { m.stats with total_users :=
            if (addDir m.fs (sanitizeDid a)).counted (sanitizeDid a) then
              m.stats.total_users
            else m.stats.total_users + 1 }
        a raw.text now) hE
    have hst2 : st2.posts_with_links = m.stats.posts_with_links := by
      have hfr := embedStats_frame (fun s => s.posts_with_links)
        (fun _ _ => rfl) (fun _ => rfl) raw.embed
        (statsPhase1
          { m.stats with total_users :=
              if (addDir m.fs (sanitizeDid a)).counted (sanitizeDid a) then
                m.stats.total_users
              else m.stats.total_users + 1 }
          a raw.text now)
      rw [hok] at hfr
      exact hfr
    have hafter : (hashtagStats (linkStats st2 raw.facets)
        raw.text).posts_with_links =
        m.stats.posts_with_links + countLinkFeatures raw.facets :=
      calc (hashtagStats (linkStats st2 raw.facets) raw.text).posts_with_links
          = (linkStats st2 raw.facets).posts_with_links :=
            hashtagStats_frame (fun s => s.posts_with_links) (fun _ _ => rfl)
              (linkStats st2 raw.facets) raw.text
        _ = st2.posts_with_links + countLinkFeatures raw.facets :=
            linkStats_pwl st2 raw.facets
        _ = m.stats.posts_with_links + countLinkFeatures raw.facets := by
            rw [hst2]
    cases hw : (write_to_user_files raw a raw.createdAt raw.text).2 with
    | some e =>
      rw [pp_ok_writeErr raw a now m st2 e hok hw]
      exact hafter
    | none =>
      rw [pp_ok_writeOk raw a now m st2 hok hw]
      show (update_time_based_metrics
        (hashtagStats (linkStats st2 raw.facets) raw.text)
        now).posts_with_links = _
      exact (update_frame (fun s => s.posts_with_links) (fun _ _ => rfl)
        (fun _ _ => rfl) _ now).trans hafter
  · refine ⟨by decide, by decide, by decide⟩

theorem extractDomainsStr_short (s : String) (h : (splitSlash s).length < 3) :
    extractDomainsStr s = "unknown" := by
  simp only [extractDomainsStr]
  rw [List.get?_eq_none.mpr (by omega)]

/-- C6: domain extraction returns the sentinel "unknown" for every URL
string with fewer than three slash-delimited segments, the third segment
when there are at least three, and processing an event whose links are
all malformed in this way leaves the domain frequency map unchanged. -/
theorem C6_domain_extraction :
    (∀ url : String, (splitSlash url).length < 3 →
      extract_domains (PyVal.str url) = Except.ok "unknown") ∧
    (∀ url : String, ∀ h : 2 < (splitSlash url).length,
      extract_domains (PyVal.str url) =
        Except.ok ((splitSlash url).get ⟨2, h⟩)) ∧
    (∀ (m : MonState) (raw : RawPost) (a : String) (now : Nat),
      (∀ fa ∈ raw.facets, ∀ f ∈ fa.features,
        f.ftype = "app.bsky.richtext.facet#link" →
          (splitSlash f.uri).length < 3) →
      (process_post raw a now m).stats.popular_domains =
        m.stats.popular_domains) := by
  refine ⟨?_, ?_, ?_⟩
  · intro url h
    simp only [extract_domains, pySplitSlash]
    rw [List.get?_eq_none.mpr (by omega)]
  · intro url h
    simp only [extract_domains, pySplitSlash]
    rw [List.get?_eq_get h]
  · intro m raw a now huri
    have hdomains : ∀ st : Stats,
        (hashtagStats (linkStats st raw.facets) raw.text).popular_domains =
          st.popular_domains := by
      intro st
      calc (hashtagStats (linkStats st raw.facets) raw.text).popular_domains
          = (linkStats st raw.facets).popular_domains :=
            hashtagStats_frame (fun s => s.popular_domains) (fun _ _ => rfl)
              (linkStats st raw.facets) raw.text
        _ = st.popular_domains :=
            linkStats_domains st raw.facets
              (fun fa hfa f hf hl =>
                extractDomainsStr_short f.uri (huri fa hfa f hf hl))
    cases hok : embedStats
        (statsPhase1
          { m.stats with total_users :=
              if (addDir m.fs (sanitizeDid a)).counted (sanitizeDid a) then
                m.stats.total_users
              else m.stats.total_users + 1 }
          a raw.text now)
        raw.embed with
    | error stE =>
      rw [pp_embed_err raw a now m stE hok]
      show stE.popular_domains = _
      have hfr := embedStats_frame (fun s => s.popular_domains)
        (fun _ _ => rfl) (fun _ => rfl) raw.embed
        (statsPhase1
          { m.stats with total_users :=
              if (addDir m.fs (sanitizeDid a)).counted (sanitizeDid a) then
                m.stats.total_users
              else m.stats.total_users + 1 }
          a raw.text now)
      rw [hok] at hfr
      exact hfr
    | ok st2 =>
      have hst2 : st2.popular_domains = m.stats.popular_domains := by
        have hfr := embedStats_frame (fun s => s.popular_domains)
          (fun _ _ => rfl) (fun _ => rfl) raw.embed
          (statsPhase1
            { m.stats with total_users :=
                if (addDir m.fs (sanitizeDid a)).counted (sanitizeDid a) then
                  m.stats.total_users
                else m.stats.total_users + 1 }
            a raw.text now)
        rw [hok] at hfr
        exact hfr
      cases hw : (write_to_user_files raw a raw.createdAt raw.text).2 with
      | some e =>
        rw [pp_ok_writeErr raw a now m st2 e hok hw]
        exact (hdomains st2).trans hst2
      | none =>
        rw [pp_ok_writeOk raw a now m st2 hok hw]
        show (update_time_based_metrics
          (hashtagStats (linkStats st2 raw.facets) raw.text)
          now).popular_domains = _
        exact (update_frame (fun s => s.popular_domains) (fun _ _ => rfl)
          (fun _ _ => rfl) _ now).trans ((hdomains st2).trans hst2)

/-- C10 counterexample: domain extraction is not total over all input
values: on a bytes value, split with a string separator raises
TypeError, which is not among the caught exception types and
propagates. -/
theorem C10_counterexample :
    extract_domains (PyVal.bytes []) = Except.error PyExc.typeError := rfl

/-- C10 (amended): domain extraction returns a string and propagates no
exception for every input value other than a bytes object (the only
builtin value whose split attribute exists but rejects the string
separator); for all values without a split method the AttributeError is
caught, and for strings the IndexError is caught. -/
theorem C10_total_non_bytes (v : PyVal)
    (h : ∀ bs : List Nat, v ≠ PyVal.bytes bs) :
    ∃ s : String, extract_domains v = Except.ok s := by
  cases v with
  | bytes bs => exact absurd rfl (h bs)
  | str s =>
    cases hg : (splitSlash s).get? 2 with
    | some seg => exact ⟨seg, by simp only [extract_domains, pySplitSlash, hg]⟩
    | none =>
      exact ⟨"unknown", by simp only [extract_domains, pySplitSlash, hg]⟩
  | none => exact ⟨"unknown", rfl⟩
  | bool b => exact ⟨"unknown", rfl⟩
  | int n => exact ⟨"unknown", rfl⟩
  | list vs => exact ⟨"unknown", rfl⟩
  | dict kvs => exact ⟨"unknown", rfl⟩

theorem pp_users_fs (raw : RawPost) (a : String) (now : Nat) (m : MonState) :
    (process_post raw a now m).stats.total_users =
      (if (addDir m.fs (sanitizeDid a)).counted (sanitizeDid a) then
        m.stats.total_users else m.stats.total_users + 1) ∧
    (process_post raw a now m).fs =
      (if (addDir m.fs (sanitizeDid a)).counted (sanitizeDid a) then
        addDir m.fs (sanitizeDid a)
       else setCounted (addDir m.fs (sanitizeDid a)) (sanitizeDid a)) := by
  cases hok : embedStats
      (statsPhase1
        { m.stats with total_users :=
            if (addDir m.fs (sanitizeDid a)).counted (sanitizeDid a) then
              m.stats.total_users
            else m.stats.total_users + 1 }
        a raw.text now)
      raw.embed with
  | error stE =>
    rw [pp_embed_err raw a now m stE hok]
    constructor
    · show stE.total_users = _
      have hfr := embedStats_frame (fun s => s.total_users)
        (fun _ _ => rfl) (fun _ => rfl) raw.embed
        (statsPhase1
          { m.stats with total_users :=
              if (addDir m.fs (sanitizeDid a)).counted (sanitizeDid a) then
                m.stats.total_users
              else m.stats.total_users + 1 }
          a raw.text now)
      rw [hok] at hfr
      exact hfr
    · rfl
  | ok st2 =>
    have hst2 : st2.total_users =
        (if (addDir m.fs (sanitizeDid a)).counted (sanitizeDid a) then
          m.stats.total_users else m.stats.total_users + 1) := by
      have hfr := embedStats_frame (fun s => s.total_users)
        (fun _ _ => rfl) (fun _ => rfl) raw.embed
        (statsPhase1
          { m.stats with total_users :=
              if (addDir m.fs (sanitizeDid a)).counted (sanitizeDid a) then
                m.stats.total_users
              else m.stats.total_users + 1 }
          a raw.text now)
      rw [hok] at hfr
      exact hfr
    have hafter : (hashtagStats (linkStats st2 raw.facets)
        raw.text).total_users = st2.total_users :=
      (hashtagStats_frame (fun s => s.total_users) (fun _ _ => rfl)
        (linkStats st2 raw.facets) raw.text).trans
        (linkStats_frame (fun s => s.total_users) (fun _ => rfl)
          (fun _ _ => rfl) st2 raw.facets)
    cases hw : (write_to_user_files raw a raw.createdAt raw.text).2 with
    | some e =>
      rw [pp_ok_writeErr raw a now m st2 e hok hw]
      exact ⟨hafter.trans hst2, rfl⟩
    | none =>
      rw [pp_ok_writeOk raw a now m st2 hok hw]
      refine ⟨?_, rfl⟩
      show (update_time_based_metrics
        (hashtagStats (linkStats st2 raw.facets) raw.text) now).total_users = _
      exact ((update_frame (fun s => s.total_users) (fun _ _ => rfl)
        (fun _ _ => rfl) _ now).trans hafter).trans hst2

/-- C2 (amended): within one run the first-seen check returns true and
increments the global user count exactly once per author, and false
thereafter; across a simulated restart the pre-scan recomputes the
count, preserving it and the markers provided every directory's marker
agrees with the presence of csv data (guaranteed when at least one row
per counted author was flushed).  An author whose marker exists but
whose directory holds no csv file is dropped from the recomputed
count. -/
theorem C2_amended_first_seen :
    (∀ (raw : RawPost) (a : String) (now : Nat) (m : MonState),
      (m.fs.counted (sanitizeDid a) = false →
        (process_post raw a now m).stats.total_users =
          m.stats.total_users + 1 ∧
        (process_post raw a now m).fs.counted (sanitizeDid a) = true) ∧
      (m.fs.counted (sanitizeDid a) = true →
        (process_post raw a now m).stats.total_users = m.stats.total_users ∧
        (process_post raw a now m).fs.counted (sanitizeDid a) = true)) ∧
    (∀ (fs : FsState) (total : Nat),
      (∀ d ∈ fs.dirs, fs.counted d = hasData fs.files d) →
      total = fs.dirs.countP (fun d => fs.counted d) →
      (init_user_count fs).2 = total ∧
      ∀ d, (init_user_count fs).1.counted d = fs.counted d) := by
  constructor
  · intro raw a now m
    have hm := pp_users_fs raw a now m
    constructor
    · intro hfalse
      have hcond :
          ¬ ((addDir m.fs (sanitizeDid a)).counted (sanitizeDid a) = true) := by
        rw [addDir_counted]
        simp [hfalse]
      rw [if_neg hcond, if_neg hcond] at hm
      refine ⟨hm.1, ?_⟩
      rw [hm.2]
      simp [setCounted]
    · intro htrue
      have hcond :
          (addDir m.fs (sanitizeDid a)).counted (sanitizeDid a) = true := by
        rw [addDir_counted]
        exact htrue
      rw [if_pos hcond, if_pos hcond] at hm
      refine ⟨hm.1, ?_⟩
      rw [hm.2, addDir_counted]
      exact htrue
  · intro fs total hagree htot
    constructor
    · show fs.dirs.countP (fun d => hasData fs.files d) = total
      rw [htot]
      exact List.countP_congr (fun d hd => by rw [hagree d hd])
    · intro d
      show (if d ∈ fs.dirs ∧ hasData fs.files d = true then true
        else fs.counted d) = fs.counted d
      by_cases hd : d ∈ fs.dirs ∧ hasData fs.files d = true
      · rw [if_pos hd, hagree d hd.1, hd.2]
      · rw [if_neg hd]

/-- C2 counterexample: one event whose write step raises (embed bound to
None) marks its author as counted and sets the user total to one while
enqueuing nothing, so even after a clean flush the directory holds no
csv file and the restart pre-scan recomputes a total of zero: the total
user count is not preserved across the restart. -/
theorem C2_counterexample :
    (process_post rawNullEmbed "did:abc" 0 m0).stats.total_users = 1 ∧
    (process_post rawNullEmbed "did:abc" 0 m0).queue = [] ∧
    (init_user_count (process_post rawNullEmbed "did:abc" 0 m0).fs).2 = 0 := by
  refine ⟨by decide, by decide, by decide⟩

theorem shutInv_init : ShutInv shutInit :=
  ⟨fun h => Bool.noConfusion h,
   fun h => Bool.noConfusion h,
   fun _ => ⟨rfl, rfl, ⟨[], rfl, rfl⟩⟩,
   fun h => Bool.noConfusion h,
   fun h => Bool.noConfusion h⟩

theorem shutInv_step (s : ShutState) (l : ShutLabel) (s' : ShutState)
    (hstep : ShutStep s l s') (hinv : ShutInv s) : ShutInv s' := by
  obtain ⟨hJ, hE, hF, hT, hX⟩ := hinv
  cases hstep with
  | ingest t =>
    refine ⟨hJ, hE, ?_, ?_, ?_⟩
    · intro hp
      obtain ⟨hw, hj, pending, hq, hpre⟩ := hF hp
      refine ⟨hw, hj, pending ++ [t], ?_, ?_⟩
      · show s.queue ++ [Option.some t] = _
        rw [hq, List.map_append]
        rfl
      · show (if s.pillSent then s.prePill else s.prePill ++ [t]) =
          s.flushed ++ (pending ++ [t])
        rw [if_neg (by simp only [Bool.not_eq_true]; exact hp), hpre,
          List.append_assoc]
    · intro hp hw
      obtain ⟨pending, post, hq, hpre⟩ := hT hp hw
      refine ⟨pending, post ++ [t], ?_, ?_⟩
      · show s.queue ++ [Option.some t] = _
        rw [hq]
        simp [List.append_assoc]
      · show (if s.pillSent then s.prePill else s.prePill ++ [t]) = _
        rw [if_pos hp]
        exact hpre
    · intro hw
      obtain ⟨hp, hfl⟩ := hX hw
      refine ⟨hp, ?_⟩
      show s.flushed = (if s.pillSent then s.prePill else s.prePill ++ [t])
      rw [if_pos hp]
      exact hfl
  | sendPill h =>
    obtain ⟨hw, hj, pending, hq, hpre⟩ := hF h
    refine ⟨?_, ?_, ?_, ?_, ?_⟩
    · intro hjj
      exact absurd hjj (by simp [hj])
    · intro hee
      exact absurd (hE hee) (by simp [hj])
    · intro hp
      exact Bool.noConfusion hp
    · intro _ _
      refine ⟨pending, [], ?_, hpre⟩
      show s.queue ++ [Option.none] = _
      rw [hq]
      rfl
    · intro hwx
      exact absurd hwx (by simp [hw])
  | writerTask t rest hq0 hw0 =>
    refine ⟨hJ, hE, ?_, ?_, ?_⟩
    · intro hp
      obtain ⟨hw, hj, pending, hq, hpre⟩ := hF hp
      rw [hq] at hq0
      cases pending with
      | nil => simp at hq0
      | cons t' p' =>
        simp only [List.map_cons] at hq0
        injection hq0 with h1 h2
        injection h1 with h1'
        refine ⟨hw, hj, p', h2.symm, ?_⟩
        show s.prePill = (s.flushed ++ [t]) ++ p'
        rw [hpre, h1']
        simp [List.append_assoc]
    · intro hp hwx
      obtain ⟨pending, post, hq, hpre⟩ := hT hp hw0
      rw [hq] at hq0
      cases pending with
      | nil => simp at hq0
      | cons t' p' =>
        simp only [List.map_cons, List.cons_append] at hq0
        injection hq0 with h1 h2
        injection h1 with h1'
        refine ⟨p', post, h2.symm, ?_⟩
        show s.prePill = (s.flushed ++ [t]) ++ p'
        rw [hpre, h1']
        simp [List.append_assoc]
    · intro hwx
      exact absurd hwx (by simp [hw0])
  | writerStop rest hq0 hw0 =>
    refine ⟨?_, hE, ?_, ?_, ?_⟩
    · intro hjj
      exact ⟨rfl, (hJ hjj).2⟩
    · intro hp
      obtain ⟨hw, hj, pending, hq, hpre⟩ := hF hp
      rw [hq] at hq0
      cases pending with
      | nil => simp at hq0
      | cons t' p' => simp at hq0
    · intro _ hwx
      exact Bool.noConfusion hwx
    · intro _
      by_cases hp : s.pillSent = true
      · obtain ⟨pending, post, hq, hpre⟩ := hT hp hw0
        rw [hq] at hq0
        cases pending with
        | nil =>
          refine ⟨hp, ?_⟩
          show s.flushed = s.prePill
          rw [hpre]
          simp
        | cons t' p' => simp at hq0
      · have hpf : s.pillSent = false := by
          cases hxx : s.pillSent
          · rfl
          · exact absurd hxx hp
        obtain ⟨hw, hj, pending, hq, hpre⟩ := hF hpf
        rw [hq] at hq0
        cases pending with
        | nil => simp at hq0
        | cons t' p' => simp at hq0
  | joinWriter hp hw hj =>
    refine ⟨fun _ => ⟨hw, hp⟩, fun _ => rfl, ?_, ?_, ?_⟩
    · intro hpf
      exact Bool.noConfusion
        (hp.symm.trans (show s.pillSent = false from hpf))
    · intro hpt hwx
      exact Bool.noConfusion
        (hw.symm.trans (show s.writerExited = false from hwx))
    · intro hwx
      exact hX hwx
  | exportAnalytics hj he =>
    exact ⟨hJ, fun _ => hj, hF, hT, hX⟩

theorem shutInv_reach (s : ShutState) (h : ShutReach s) : ShutInv s := by
  induction h with
  | refl => exact shutInv_init
  | tail hr hstep ih =>
    obtain ⟨l, hst⟩ := hstep
    exact shutInv_step _ l _ hst ih

/-- C4 (amended): on shutdown one poison pill is pushed onto the write
queue, the writer thread exits only after flushing, in order, exactly
the tasks enqueued before the sentinel, and the final analytics
aggregate is exported only after the writer thread has exited.  The
ingestion loop, however, is not stopped first: nothing prevents the
firehose client thread from enqueuing more records after the pill (see
the counterexample), and those are never flushed. -/
theorem C4_amended_shutdown (s : ShutState) (h : ShutReach s)
    (he : s.exported = true) :
    s.pillSent = true ∧ s.writerExited = true ∧ s.flushed = s.prePill := by
  have hi := shutInv_reach s h
  have hj := hi.2.1 he
  have hw := hi.1 hj
  exact ⟨hw.2, hw.1, (hi.2.2.2.2 hw.1).2⟩

/-- C4 counterexample: the claim that the ingestion loop stops accepting
new records before the pill is pushed is false: from the reachable state
right after the pill is sent, an ingest transition is still possible,
because the daemon client thread is never stopped. -/
theorem C4_counterexample :
    ¬ (∀ (s s' : ShutState) (t : WriteTask), ShutReach s →
        s.pillSent = true → ShutStep s (ShutLabel.ingest t) s' → False) := by
  intro h
  exact h pillState
    { pillState with
      queue := pillState.queue ++ [Option.some dummyTask]
      prePill := if pillState.pillSent then pillState.prePill
        else pillState.prePill ++ [dummyTask] }
    dummyTask
    (Relation.ReflTransGen.single
      ⟨ShutLabel.sendPill, ShutStep.sendPill shutInit rfl⟩)
    rfl
    (ShutStep.ingest pillState dummyTask)

/-- C1 (amended): for the scenario event with text hello #world,
createdAt 2024-01-01T00:00:00Z, an empty facets list and no embed key,
processing enqueues exactly one Posts row, equal to
[2024-01-01T00:00:00Z, hello #world, 0, 0, 0, (empty), (empty), 0, 0, 1],
and afterwards the hashtag frequency map maps world to 1.  (With the
embed key present and bound to null the write step raises and no row is
enqueued; see the counterexample.) -/
theorem C1_amended_scenario :
    (process_post rawNoEmbed "did:abc" 0 m0).queue =
      [{ path := { author := "did_abc", table := TableKind.posts }
         row := ["2024-01-01T00:00:00Z", "hello #world", "0", "0", "0",
                 "", "", "0", "0", "1"]
         header := postHeaders }] ∧
    (process_post rawNoEmbed "did:abc" 0 m0).stats.hashtag_stats "world" = 1 := by
  refine ⟨by decide, by decide⟩

/-- C1 counterexample: for the scenario event taken literally, with the
embed key present and bound to None, write_to_user_files raises
AttributeError at the has-images check, so no Posts row is enqueued at
all (the hashtag map still maps world to 1, having been updated before
the write step). -/
theorem C1_counterexample :
    (process_post rawNullEmbed "did:abc" 0 m0).queue = [] ∧
    (process_post rawNullEmbed "did:abc" 0 m0).stats.hashtag_stats "world" = 1 := by
  refine ⟨by decide, by decide⟩

/-- Witness for C2: the hypotheses of both halves hold at concrete
inputs (a fresh state for the live path; a one-user flushed directory
for the restart path). -/
theorem C2_amended_first_seen_witness :
    (m0.fs.counted (sanitizeDid "did:abc") = false ∧
      (process_post rawNoEmbed "did:abc" 0 m0).stats.total_users =
        m0.stats.total_users + 1 ∧
      (process_post rawNoEmbed "did:abc" 0 m0).fs.counted
        (sanitizeDid "did:abc") = true) ∧
    ((∀ d ∈ fsMark.dirs, fsMark.counted d = hasData fsMark.files d) ∧
      (init_user_count fsMark).2 =
        fsMark.dirs.countP (fun d => fsMark.counted d) ∧
      (init_user_count fsMark).1.counted "did_abc" =
        fsMark.counted "did_abc") := by
  refine ⟨⟨by decide, ?_⟩, ⟨by decide, ?_, ?_⟩⟩
  · exact ((C2_amended_first_seen.1 rawNoEmbed "did:abc" 0 m0).1 (by decide))
  · exact (C2_amended_first_seen.2 fsMark
      (fsMark.dirs.countP (fun d => fsMark.counted d)) (by decide) rfl).1
  · exact (C2_amended_first_seen.2 fsMark
      (fsMark.dirs.countP (fun d => fsMark.counted d)) (by decide) rfl).2
      "did_abc"

/-- Witness for C3: the timing hypotheses hold for two embed-free events
at times 10 and 71 over a fresh state, and the minute history ends as
the claim predicts. -/
theorem C3_minute_window_witness :
    rawNoEmbed.embed = Option.none ∧
    m0.stats.posts_per_minute = [] ∧
    m0.stats.last_minute_timestamp ≤ 10 ∧
    10 < m0.stats.last_minute_timestamp + 60 ∧
    (71 : Nat) = 10 + 61 ∧
    ((process_post rawNoEmbed "did:x" 71
        (process_post rawNoEmbed "did:abc" 10 m0)).stats.posts_per_minute =
      [m0.stats.posts_this_minute + 2] ∧
     (process_post rawNoEmbed "did:x" 71
        (process_post rawNoEmbed "did:abc" 10 m0)).stats.posts_this_minute =
       0) := by
  refine ⟨rfl, rfl, by decide, by decide, rfl, ?_⟩
  exact (C3_minute_window m0 rawNoEmbed rawNoEmbed "did:abc" "did:x" 10 71
    rfl rfl rfl (by decide) (by decide) rfl).1

/-- Witness for C4: the fully shut-down state is reachable, and at it
the writer has exited with exactly the pre-pill tasks flushed. -/
theorem C4_amended_shutdown_witness :
    ShutReach exportedState ∧ exportedState.exported = true ∧
    (exportedState.pillSent = true ∧ exportedState.writerExited = true ∧
      exportedState.flushed = exportedState.prePill) := by
  have h1 : ShutStep shutInit ShutLabel.sendPill pillState :=
    ShutStep.sendPill shutInit rfl
  have h2 : ShutStep pillState ShutLabel.writerStop writerDoneState :=
    ShutStep.writerStop pillState [] rfl rfl
  have h3 : ShutStep writerDoneState ShutLabel.joinWriter joinedState :=
    ShutStep.joinWriter writerDoneState rfl rfl rfl
  have h4 : ShutStep joinedState ShutLabel.exportAnalytics exportedState :=
    ShutStep.exportAnalytics joinedState rfl rfl
  have hr : ShutReach exportedState :=
    Relation.ReflTransGen.tail
      (Relation.ReflTransGen.tail
        (Relation.ReflTransGen.tail
          (Relation.ReflTransGen.single ⟨ShutLabel.sendPill, h1⟩)
          ⟨ShutLabel.writerStop, h2⟩)
        ⟨ShutLabel.joinWriter, h3⟩)
      ⟨ShutLabel.exportAnalytics, h4⟩
  exact ⟨hr, rfl, C4_amended_shutdown exportedState hr rfl⟩

/-- Witness for C5: two tasks to the same fresh file produce the header
once, followed by the two data rows in dequeue order. -/
theorem C5_writer_header_fifo_witness :
    (∀ t ∈ [dummyTask, dummyTask2],
      t.header = (fun _ : FileId => ["h"]) t.path) ∧
    (∀ (q : FileId) (rows : List (List String)),
      (fun _ : FileId => (Option.none : Option (List (List String)))) q =
        Option.some rows → ∃ rest, rows = (fun _ : FileId => ["h"]) q :: rest) ∧
    runWriter (fun _ => Option.none) [dummyTask, dummyTask2]
      { author := "a", table := TableKind.posts } =
      Option.some [["h"], ["r"], ["r2"]] := by
  refine ⟨by decide, ?_, ?_⟩
  · intro q rows h
    exact absurd h (by simp)
  · rw [C5_writer_header_fifo (fun _ => ["h"]) [dummyTask, dummyTask2]
      (by decide) (fun _ => Option.none)
      (fun q rows h => absurd h (by simp))
      { author := "a", table := TableKind.posts }]
    decide

/-- Witness for C6: the malformed URL not-a-url yields the sentinel, a
three-segment URL yields its third segment, and the event carrying the
malformed link leaves the domain map unchanged. -/
theorem C6_domain_extraction_witness :
    (splitSlash "not-a-url").length < 3 ∧
    extract_domains (PyVal.str "not-a-url") = Except.ok "unknown" ∧
    2 < (splitSlash "https://example.com/x").length ∧
    extract_domains (PyVal.str "https://example.com/x") =
      Except.ok "example.com" ∧
    (∀ fa ∈ rawBadLink.facets, ∀ f ∈ fa.features,
      f.ftype = "app.bsky.richtext.facet#link" →
        (splitSlash f.uri).length < 3) ∧
    (process_post rawBadLink "did:abc" 0 m0).stats.popular_domains =
      m0.stats.popular_domains := by
  refine ⟨by decide, C6_domain_extraction.1 "not-a-url" (by decide),
    by decide, ?_, by decide,
    C6_domain_extraction.2.2 m0 rawBadLink "did:abc" 0 (by decide)⟩
  exact (C6_domain_extraction.2.1 "https://example.com/x" (by decide)).trans
    (congrArg Except.ok (by decide))

/-- Witness for C7: a fresh state at time 3600 rolls the hour window,
appending the minute-history sum and clearing the active set. -/
theorem C7_hour_window_witness :
    (initStats 0).last_hour_timestamp + 3600 ≤ 3600 ∧
    (update_time_based_metrics (initStats 0) 3600).posts_per_hour =
      (if 24 ≤ (initStats 0).posts_per_hour.length then
        (initStats 0).posts_per_hour.tail
       else (initStats 0).posts_per_hour) ++
        [(if (initStats 0).last_minute_timestamp + 60 ≤ 3600 then
            dequeAppend 60 (initStats 0).posts_per_minute
              (initStats 0).posts_this_minute
          else (initStats 0).posts_per_minute).sum] ∧
    (update_time_based_metrics (initStats 0) 3600).active_users_last_hour
      "u" = false := by
  refine ⟨by decide, (C7_hour_window (initStats 0) 3600 (by decide)).1, ?_⟩
  rw [(C7_hour_window (initStats 0) 3600 (by decide)).2]

/-- Witness for C8: the scenario event with embed bound to None leaves
the queue untouched but keeps its statistics contributions. -/
theorem C8_non_atomic_witness :
    rawNullEmbed.embed = Option.some PyVal.none ∧
    pyIsDict PyVal.none = false ∧
    (write_to_user_files rawNullEmbed "did:abc" rawNullEmbed.createdAt
      rawNullEmbed.text).2 = Option.some PyExc.attributeError ∧
    (process_post rawNullEmbed "did:abc" 0 m0).queue = m0.queue ∧
    (process_post rawNullEmbed "did:abc" 0 m0).stats.total_posts =
      m0.stats.total_posts + 1 ∧
    (process_post rawNullEmbed "did:abc" 0 m0).stats.hashtag_stats "world" =
      m0.stats.hashtag_stats "world" + countTagOcc "world" rawNullEmbed.text := by
  have h := C8_non_atomic m0 rawNullEmbed "did:abc" 0 PyVal.none rfl rfl
  exact ⟨rfl, rfl, h.1, h.2.1, h.2.2.1, h.2.2.2.2.2.2.2 "world"⟩

/-- Witness for C9: the two-link event satisfies the embed hypothesis
and raises the counter by its two link features. -/
theorem C9_links_per_feature_witness :
    embedOk rawTwoLinks.embed = true ∧
    (process_post rawTwoLinks "did:abc" 0 m0).stats.posts_with_links =
      m0.stats.posts_with_links + countLinkFeatures rawTwoLinks.facets := by
  exact ⟨rfl, C9_links_per_feature.1 m0 rawTwoLinks "did:abc" 0 rfl⟩

/-- Witness for C10: an int value is not a bytes object and domain
extraction returns a string on it. -/
theorem C10_total_non_bytes_witness :
    (∀ bs : List Nat, PyVal.int 7 ≠ PyVal.bytes bs) ∧
    ∃ s : String, extract_domains (PyVal.int 7) = Except.ok s :=
  ⟨fun bs h => PyVal.noConfusion h,
   C10_total_non_bytes (PyVal.int 7) (fun bs h => PyVal.noConfusion h)⟩
